import Mathlib

/-!
Shallow embedding of the auto-sub subscription-processing repository
(src/process_subscriptions.py, src/script.py, src/update.py).

Python strings are modelled as lists of characters (`Str`), Python `bytes`
as lists of naturals below 256 (`Bytes`).  Python exception flow is made
explicit through the `PyEx` type: `.raise` is an uncaught exception leaving
the modelled function, `.ret` a normal return.  `None` returns are `.ret
none`.  Functions are translated branch for branch from the source; stdlib
primitives used by the source (`base64.b64decode` in its default non-strict
mode, `str.strip`, `str.lower`, `urllib.parse.urlparse`, `json.loads`,
`json.dumps`, `str`/`repr` rendering of dicts) are modelled below to the
extent the source exercises them, following the documented CPython
semantics.
-/

abbrev Str := List Char

abbrev Bytes := List Nat

/-- Python exception flow: a computation either raises an exception that
escapes the modelled function, or returns a value. -/
inductive PyEx (A : Type) where
  | raise (msg : Str)
  | ret (a : A)
deriving DecidableEq, Repr

/-- ASCII whitespace as stripped by `str.strip()` (all inputs in this
development are ASCII). -/
def isPyWs (c : Char) : Bool :=
  c == ' ' || c == '\t' || c == '\n' || c == '\r' ||
    c == Char.ofNat 11 || c == Char.ofNat 12

/-- Model of `str.lstrip()`. -/
def pyStripLeft (s : Str) : Str := s.dropWhile isPyWs

/-- Model of `str.rstrip()`. -/
def pyStripRight (s : Str) : Str := (s.reverse.dropWhile isPyWs).reverse

/-- Model of `str.strip()`. -/
def pyStrip (s : Str) : Str := pyStripRight (pyStripLeft s)

/-- Model of the Python substring test `pat in s`. -/
def containsSub : Str → Str → Bool
  | s, pat =>
    match s with
    | [] => pat.isEmpty
    | _ :: rest => pat.isPrefixOf s || containsSub rest pat

/-- Model of `str.lower()` restricted to ASCII letters (every cased
character this development feeds it is ASCII). -/
def pyLowerChar (c : Char) : Char :=
  if 'A' ≤ c ∧ c ≤ 'Z' then Char.ofNat (c.toNat + 32) else c

/-- Model of `str.lower()` on a whole string. -/
def pyLower (s : Str) : Str := s.map pyLowerChar

/-- True when every character is ASCII, i.e. `str.encode('ascii')`
succeeds. -/
def allAscii (s : Str) : Bool := s.all (fun c => c.toNat < 128)

/-- Value of a standard-alphabet base64 character, `none` for characters
outside the alphabet. -/
def b64CharVal (c : Char) : Option Nat :=
  if 'A' ≤ c ∧ c ≤ 'Z' then some (c.toNat - 65)
  else if 'a' ≤ c ∧ c ≤ 'z' then some (c.toNat - 71)
  else if '0' ≤ c ∧ c ≤ '9' then some (c.toNat + 4)
  else if c = '+' then some 62
  else if c = '/' then some 63
  else none

/-- Loop of CPython `binascii.a2b_base64` in its default non-strict mode:
characters outside the alphabet are skipped; a padding character is
counted only once the current quad holds at least two data characters,
and decoding stops successfully as soon as padding completes a quad;
leftover data characters at the end raise `binascii.Error`. -/
def a2bBase64Loop : Str → Nat → Nat → Nat → Bytes → PyEx Bytes
  | [], quadPos, _, _, acc =>
      if quadPos = 0 then .ret acc.reverse
      else .raise ("binascii.Error: Incorrect padding".toList)
  | c :: rest, quadPos, leftchar, pads, acc =>
      if c = '=' then
        if quadPos ≥ 2 ∧ quadPos + (pads + 1) ≥ 4 then .ret acc.reverse
        else a2bBase64Loop rest quadPos leftchar
          (if quadPos ≥ 2 then pads + 1 else pads) acc
      else
        match b64CharVal c with
        | none => a2bBase64Loop rest quadPos leftchar pads acc
        | some v =>
          match quadPos with
          | 0 => a2bBase64Loop rest 1 v 0 acc
          | 1 => a2bBase64Loop rest 2 (v % 16) 0 ((leftchar * 4 + v / 16) :: acc)
          | 2 => a2bBase64Loop rest 3 (v % 4) 0 ((leftchar * 16 + v / 4) :: acc)
          | _ => a2bBase64Loop rest 0 0 0 ((leftchar * 64 + v) :: acc)

/-- CPython `binascii.a2b_base64` (non-strict), the decoder behind
`base64.b64decode(..., validate=False)`. -/
def a2bBase64 (s : Str) : PyEx Bytes := a2bBase64Loop s 0 0 0 []

/-- `base64.b64decode` on a `str` argument: CPython first encodes the
string as ASCII (raising on non-ASCII characters), then runs the
non-strict decoder. -/
def b64DecodePy (s : Str) : PyEx Bytes :=
  if allAscii s then a2bBase64 s
  else .raise ("ValueError: string argument should contain only ASCII characters".toList)

/-- Character translation applied by `base64.urlsafe_b64decode`. -/
def urlsafeTranslate (c : Char) : Char :=
  if c = '-' then '+' else if c = '_' then '/' else c

/-- `base64.urlsafe_b64decode` on a `str` argument. -/
def urlsafeB64DecodePy (s : Str) : PyEx Bytes :=
  if allAscii s then a2bBase64 (s.map urlsafeTranslate)
  else .raise ("ValueError: string argument should contain only ASCII characters".toList)

/-- Standard base64 alphabet character for a 6-bit value. -/
def b64AlphaChar (n : Nat) : Char :=
  if n < 26 then Char.ofNat (65 + n)
  else if n < 52 then Char.ofNat (97 + (n - 26))
  else if n < 62 then Char.ofNat (48 + (n - 52))
  else if n = 62 then '+'
  else '/'

/-- `base64.b64encode` (standard alphabet, padded). -/
def b64Encode : Bytes → Str
  | [] => []
  | [b1] => [b64AlphaChar (b1 / 4), b64AlphaChar (b1 % 4 * 16), '=', '=']
  | [b1, b2] => [b64AlphaChar (b1 / 4), b64AlphaChar (b1 % 4 * 16 + b2 / 16),
      b64AlphaChar (b2 % 16 * 4), '=']
  | b1 :: b2 :: b3 :: rest =>
      b64AlphaChar (b1 / 4) :: b64AlphaChar (b1 % 4 * 16 + b2 / 16) ::
      b64AlphaChar (b2 % 16 * 4 + b3 / 64) :: b64AlphaChar (b3 % 64) ::
      b64Encode rest

/-- `base64.urlsafe_b64encode` (alphabet with `-` and `_`, padded). -/
def urlsafeB64Encode (bs : Bytes) : Str :=
  (b64Encode bs).map (fun c => if c = '+' then '-' else if c = '/' then '_' else c)

/-- Model of `str.rstrip` of a single character, used for stripping `=`
padding after encoding. -/
def rstripChar (c : Char) (s : Str) : Str :=
  (s.reverse.dropWhile (fun x => x == c)).reverse

/-- True for a UTF-8 continuation byte. -/
def isContByte (b : Nat) : Bool := 128 ≤ b && b < 192

/-- Strict UTF-8 decoding as performed by `bytes.decode('utf-8')`:
rejects lone continuation bytes, overlong encodings, surrogates and
code points above U+10FFFF. -/
def utf8Decode : Bytes → Option Str
  | [] => some []
  | b :: rest =>
    if b < 128 then (utf8Decode rest).map (fun t => Char.ofNat b :: t)
    else if b < 194 then none
    else if b < 224 then
      match rest with
      | b2 :: r2 =>
        if isContByte b2 then
          (utf8Decode r2).map (fun t => Char.ofNat ((b - 192) * 64 + (b2 - 128)) :: t)
        else none
      | [] => none
    else if b < 240 then
      match rest with
      | b2 :: b3 :: r3 =>
        let cp := (b - 224) * 4096 + (b2 - 128) * 64 + (b3 - 128)
        if isContByte b2 && isContByte b3 && decide (2048 ≤ cp) &&
            !(decide (55296 ≤ cp) && decide (cp ≤ 57343)) then
          (utf8Decode r3).map (fun t => Char.ofNat cp :: t)
        else none
      | _ => none
    else if b < 245 then
      match rest with
      | b2 :: b3 :: b4 :: r4 =>
        let cp := (b - 240) * 262144 + (b2 - 128) * 4096 + (b3 - 128) * 64 + (b4 - 128)
        if isContByte b2 && isContByte b3 && isContByte b4 &&
            decide (65536 ≤ cp) && decide (cp ≤ 1114111) then
          (utf8Decode r4).map (fun t => Char.ofNat cp :: t)
        else none
      | _ => none
    else none

/-- `bytes.decode('latin-1')`: each byte becomes the character of the same
code point; it can never fail. -/
def latin1Decode (bs : Bytes) : Str := bs.map Char.ofNat

/-- The text-decoding fallback the scripts use everywhere:
`try: b.decode('utf-8') except UnicodeDecodeError: b.decode('latin-1')`. -/
def textFromBytes (bs : Bytes) : Str :=
  match utf8Decode bs with
  | some t => t
  | none => latin1Decode bs

/-- `str.encode('utf-8')`. -/
def utf8EncodeChar (c : Char) : Bytes :=
  let n := c.toNat
  if n < 128 then [n]
  else if n < 2048 then [192 + n / 64, 128 + n % 64]
  else if n < 65536 then [224 + n / 4096, 128 + n / 64 % 64, 128 + n % 64]
  else [240 + n / 262144, 128 + n / 4096 % 64, 128 + n / 64 % 64, 128 + n % 64]

/-- `str.encode('utf-8')` on a whole string. -/
def utf8Encode (s : Str) : Bytes := s.foldr (fun c acc => utf8EncodeChar c ++ acc) []

/-- Python `str.split(sep)` (single-character separator, no maxsplit). -/
def splitCharAux (sep : Char) : Str → Str → List Str
  | [], cur => [cur.reverse]
  | c :: rest, cur =>
    if c = sep then cur.reverse :: splitCharAux sep rest []
    else splitCharAux sep rest (c :: cur)

/-- Python `str.split(sep)`. -/
def splitChar (sep : Char) (s : Str) : List Str := splitCharAux sep s []

/-- Python `str.split(sep, 1)` when the separator occurs, `none`
otherwise (callers check the part count). -/
def splitOnceChar (sep : Char) : Str → Option (Str × Str)
  | [] => none
  | c :: rest =>
    if c = sep then some ([], rest)
    else (splitOnceChar sep rest).map (fun p => (c :: p.1, p.2))

/-- Split at the last occurrence of a character (`str.rpartition`). -/
def rsplitOnceChar (sep : Char) (s : Str) : Option (Str × Str) :=
  match splitOnceChar sep s.reverse with
  | none => none
  | some (rafter, rbefore) => some (rbefore.reverse, rafter.reverse)

/-- Python `str.splitlines()` restricted to the line boundaries that occur
in this development (`\n`, `\r\n`, `\r`). -/
def pySplitlinesAux : Str → Str → List Str
  | [], cur => if cur.isEmpty then [] else [cur.reverse]
  | '\r' :: '\n' :: rest, cur => cur.reverse :: pySplitlinesAux rest []
  | '\n' :: rest, cur => cur.reverse :: pySplitlinesAux rest []
  | '\r' :: rest, cur => cur.reverse :: pySplitlinesAux rest []
  | c :: rest, cur => pySplitlinesAux rest (c :: cur)

/-- Python `str.splitlines()`. -/
def pySplitlines (s : Str) : List Str := pySplitlinesAux s []

/-- Python `sep.join(parts)`. -/
def joinSep (sep : Str) : List Str → Str
  | [] => []
  | [x] => x
  | x :: rest => x ++ sep ++ joinSep sep rest

/-- Decimal digits of a natural number (model of `str(n)` for `n : Nat`). -/
def natToStrAux : Nat → Nat → Str → Str
  | 0, _, acc => acc
  | fuel + 1, n, acc =>
    if n < 10 then Char.ofNat (48 + n) :: acc
    else natToStrAux fuel (n / 10) (Char.ofNat (48 + n % 10) :: acc)

/-- Model of `str(n)` for a natural number. -/
def natToStr (n : Nat) : Str := natToStrAux (n + 1) n []

/-- Model of `str(n)` for a Python integer. -/
def intToStr : Int → Str
  | .ofNat n => natToStr n
  | .negSucc n => '-' :: natToStr (n + 1)

/-- Python values as produced by `json.loads` / consumed by the Clash
manifest converter.  Floats are carried as their source lexeme: no claim
in this development depends on float arithmetic, only on whether a number
parsed at all. -/
inductive PyVal where
  | pynone
  | pybool (b : Bool)
  | pyint (n : Int)
  | pyfloat (lexeme : Str)
  | pystr (s : Str)
  | pylist (xs : List PyVal)
  | pydict (kvs : List (Str × PyVal))

mutual

/-- Structural equality on `PyVal`. -/
def pyValBEq : PyVal → PyVal → Bool
  | .pynone, .pynone => true
  | .pybool a, .pybool b => a == b
  | .pyint a, .pyint b => a == b
  | .pyfloat a, .pyfloat b => a == b
  | .pystr a, .pystr b => a == b
  | .pylist xs, .pylist ys => pyValListBEq xs ys
  | .pydict xs, .pydict ys => pyValDictBEq xs ys
  | _, _ => false

/-- Structural equality on lists of `PyVal`. -/
def pyValListBEq : List PyVal → List PyVal → Bool
  | [], [] => true
  | x :: xs, y :: ys => pyValBEq x y && pyValListBEq xs ys
  | _, _ => false

/-- Structural equality on dict entry lists. -/
def pyValDictBEq : List (Str × PyVal) → List (Str × PyVal) → Bool
  | [], [] => true
  | (k1, v1) :: xs, (k2, v2) :: ys => k1 == k2 && pyValBEq v1 v2 && pyValDictBEq xs ys
  | _, _ => false

end

instance : BEq PyVal := ⟨pyValBEq⟩

/-- True when a float lexeme denotes zero (for truthiness). -/
def floatIsZero (s : Str) : Bool :=
  let s1 := match s with
    | '-' :: r => r
    | '+' :: r => r
    | r => r
  let mant := s1.takeWhile (fun c => c ≠ 'e' ∧ c ≠ 'E')
  mant.all (fun c => c = '0' ∨ c = '.') && mant.any (fun c => c = '0')

/-- Python truthiness (`bool(x)`). -/
def pyTruthy : PyVal → Bool
  | .pynone => false
  | .pybool b => b
  | .pyint n => !(n == 0)
  | .pyfloat lx => !(floatIsZero lx)
  | .pystr s => !s.isEmpty
  | .pylist xs => !xs.isEmpty
  | .pydict kvs => !kvs.isEmpty

/-- Numeric view used by Python `==` (`False == 0`, `True == 1`). -/
def pyNumView : PyVal → Option Int
  | .pybool b => some (if b then 1 else 0)
  | .pyint n => some n
  | _ => none

/-- Python `==` on the values this development compares (numeric
bool/int identification; other values structurally). -/
def pyEqVal (a b : PyVal) : Bool :=
  match pyNumView a, pyNumView b with
  | some x, some y => x == y
  | _, _ => a == b

/-- Lookup in a Python dict modelled as an association list with unique
keys (`d.get(k)`). -/
def pyDictGet (kvs : List (Str × PyVal)) (k : Str) : Option PyVal :=
  (kvs.find? (fun p => p.1 == k)).map Prod.snd

/-- Python dict insertion: an existing key keeps its position and gets the
new value, a new key is appended. -/
def dictInsert (kvs : List (Str × PyVal)) (k : Str) (v : PyVal) : List (Str × PyVal) :=
  if kvs.any (fun p => p.1 == k) then
    kvs.map (fun p => if p.1 == k then (k, v) else p)
  else kvs ++ [(k, v)]

/-- Strict lexicographic (code point) order on strings, Python `<`. -/
def strLt : Str → Str → Bool
  | [], [] => false
  | [], _ :: _ => true
  | _ :: _, [] => false
  | a :: xs, b :: ys =>
    if a.toNat < b.toNat then true
    else if a.toNat = b.toNat then strLt xs ys
    else false

/-- Insert into a sorted list (stable insertion sort step). -/
def insertSortedBy {A : Type} (lt : A → A → Bool) (x : A) : List A → List A
  | [] => [x]
  | y :: rest => if lt x y then x :: y :: rest else y :: insertSortedBy lt x rest

/-- Stable insertion sort, Python `sorted` with `<`. -/
def insertionSortBy {A : Type} (lt : A → A → Bool) : List A → List A
  | [] => []
  | x :: rest => insertSortedBy lt x (insertionSortBy lt rest)

/-- Hex digit (uppercase) for percent-encoding. -/
def hexDigitU (n : Nat) : Char :=
  if n < 10 then Char.ofNat (48 + n) else Char.ofNat (55 + n)

/-- Hex digit (lowercase) for `\uXXXX` escapes in `json.dumps`. -/
def hexDigitL (n : Nat) : Char :=
  if n < 10 then Char.ofNat (48 + n) else Char.ofNat (87 + n)

/-- Characters `urllib.parse.quote` leaves unescaped (default `safe='/'`). -/
def quoteSafeChar (c : Char) : Bool :=
  c.isAlpha || c.isDigit || c == '_' || c == '.' || c == '-' || c == '~' || c == '/'

/-- Model of `urllib.parse.quote` (UTF-8 percent-encoding). -/
def pyQuote (s : Str) : Str :=
  (utf8Encode s).foldr
    (fun b acc =>
      if b < 128 && quoteSafeChar (Char.ofNat b) then Char.ofNat b :: acc
      else '%' :: hexDigitU (b / 16) :: hexDigitU (b % 16) :: acc)
    []

/-- Value of a hex digit character. -/
def hexVal (c : Char) : Option Nat :=
  if '0' ≤ c ∧ c ≤ '9' then some (c.toNat - 48)
  else if 'a' ≤ c ∧ c ≤ 'f' then some (c.toNat - 87)
  else if 'A' ≤ c ∧ c ≤ 'F' then some (c.toNat - 55)
  else none

/-- Token stream for `urllib.parse.unquote`: a decoded `%XX` byte or a
literal character. -/
inductive PctTok where
  | byte (b : Nat)
  | ch (c : Char)

/-- True for a byte token. -/
def PctTok.isByte : PctTok → Bool
  | .byte _ => true
  | .ch _ => false

/-- The byte of a byte token (`0` otherwise, unused). -/
def PctTok.getByte : PctTok → Nat
  | .byte b => b
  | .ch _ => 0

/-- First pass of `urllib.parse.unquote`: well-formed `%XX` escapes become
byte tokens, everything else stays a literal character. -/
def pctTokens : Str → List PctTok
  | [] => []
  | [c] => [.ch c]
  | [c, d] => [.ch c, .ch d]
  | c :: a :: b :: rest =>
    if c = '%' then
      match hexVal a, hexVal b with
      | some x, some y => .byte (x * 16 + y) :: pctTokens rest
      | _, _ => .ch '%' :: pctTokens (a :: b :: rest)
    else .ch c :: pctTokens (a :: b :: rest)
termination_by s => s.length
decreasing_by all_goals simp_arith

/-- Decode a completed run of percent-escape bytes as UTF-8; an
undecodable run is rendered as replacement characters
(`errors='replace'`, approximated run-wise — no claim exercises the
malformed case). -/
def flushPctBytes (bs : Bytes) : Str :=
  if bs.isEmpty then []
  else
    match utf8Decode bs with
    | some t => t
    | none => bs.map (fun _ => Char.ofNat 65533)

/-- Second pass of `urllib.parse.unquote`: accumulate maximal byte runs
and decode each as UTF-8. -/
def pctGroupAux : List PctTok → Bytes → Str
  | [], pending => flushPctBytes pending
  | .byte b :: rest, pending => pctGroupAux rest (pending ++ [b])
  | .ch c :: rest, pending => flushPctBytes pending ++ c :: pctGroupAux rest []

/-- Model of `urllib.parse.unquote` (UTF-8 percent-decoding). -/
def pyUnquote (s : Str) : Str := pctGroupAux (pctTokens s) []

/-- `urllib.parse.unquote_plus` (`+` becomes a space, then unquote). -/
def pyUnquotePlus (s : Str) : Str :=
  pyUnquote (s.map (fun c => if c = '+' then ' ' else c))

/-- Model of `parse_qs(query).get(key, [''])[0]`: the first `k=v` segment
(split on `&`) whose raw value is nonempty (`keep_blank_values=False`)
and whose unquoted key matches; default `''`. -/
def parseQsGetFirst (query key : Str) : Str :=
  let pairs := (splitChar '&' query).filterMap (fun seg =>
    match splitOnceChar '=' seg with
    | some (k, v) => if v.isEmpty then none else some (pyUnquotePlus k, pyUnquotePlus v)
    | none => none)
  match pairs.find? (fun p => p.1 == key) with
  | some p => p.2
  | none => []

mutual

/-- Model of Python `repr` on the values this development renders
(strings without embedded quotes or backslashes, as produced by the
manifest entries the source handles). -/
def pyReprVal : PyVal → Str
  | .pynone => "None".toList
  | .pybool b => if b then "True".toList else "False".toList
  | .pyint n => intToStr n
  | .pyfloat lx => lx
  | .pystr s => Char.ofNat 39 :: (s ++ [Char.ofNat 39])
  | .pylist xs => '[' :: (pyReprListInner xs ++ [']'])
  | .pydict kvs => Char.ofNat 123 :: (pyReprDictInner kvs ++ [Char.ofNat 125])

/-- Comma-separated `repr` of list elements. -/
def pyReprListInner : List PyVal → Str
  | [] => []
  | [x] => pyReprVal x
  | x :: y :: rest => pyReprVal x ++ (", ".toList ++ pyReprListInner (y :: rest))

/-- Comma-separated `repr` of dict entries. -/
def pyReprDictInner : List (Str × PyVal) → Str
  | [] => []
  | [(k, v)] => (Char.ofNat 39 :: (k ++ [Char.ofNat 39])) ++ (": ".toList ++ pyReprVal v)
  | (k, v) :: p :: rest =>
      (Char.ofNat 39 :: (k ++ [Char.ofNat 39])) ++ (": ".toList ++ pyReprVal v) ++
        (", ".toList ++ pyReprDictInner (p :: rest))

end

/-- Model of `str(x)` / f-string interpolation. -/
def pyStrVal : PyVal → Str
  | .pystr s => s
  | v => pyReprVal v

mutual

/-- Recursively sort every dict of a value by key (the effect of
`json.dumps(..., sort_keys=True)` on rendering order). -/
def sortDictsVal : PyVal → PyVal
  | .pylist xs => .pylist (sortDictsList xs)
  | .pydict kvs => .pydict (insertionSortBy (fun a b => strLt a.1 b.1) (sortDictsDict kvs))
  | v => v

/-- Sort dicts inside each element of a list. -/
def sortDictsList : List PyVal → List PyVal
  | [] => []
  | x :: rest => sortDictsVal x :: sortDictsList rest

/-- Sort dicts inside each value of a dict entry list. -/
def sortDictsDict : List (Str × PyVal) → List (Str × PyVal)
  | [] => []
  | (k, v) :: rest => (k, sortDictsVal v) :: sortDictsDict rest

end

/-- JSON string escaping as done by `json.dumps` with
`ensure_ascii=False`. -/
def jsonEscapeChar (c : Char) : Str :=
  if c = '"' then ['\\', '"']
  else if c = '\\' then ['\\', '\\']
  else if c = '\n' then ['\\', 'n']
  else if c = '\t' then ['\\', 't']
  else if c = '\r' then ['\\', 'r']
  else if c.toNat = 8 then ['\\', 'b']
  else if c.toNat = 12 then ['\\', 'f']
  else if c.toNat < 32 then
    ['\\', 'u', '0', '0', hexDigitL (c.toNat / 16), hexDigitL (c.toNat % 16)]
  else [c]

/-- Quoted, escaped JSON rendering of a string. -/
def jsonQuoteStr (s : Str) : Str :=
  '"' :: ((s.foldr (fun c acc => jsonEscapeChar c ++ acc) []) ++ ['"'])

mutual

/-- Model of `json.dumps` rendering with default separators and
`ensure_ascii=False` (key order as given; sorting is a pre-pass). -/
def jsonDumpsVal : PyVal → Str
  | .pynone => "null".toList
  | .pybool b => if b then "true".toList else "false".toList
  | .pyint n => intToStr n
  | .pyfloat lx => lx
  | .pystr s => jsonQuoteStr s
  | .pylist xs => '[' :: (jsonDumpsListInner xs ++ [']'])
  | .pydict kvs => Char.ofNat 123 :: (jsonDumpsDictInner kvs ++ [Char.ofNat 125])

/-- Comma-separated `json.dumps` of list elements. -/
def jsonDumpsListInner : List PyVal → Str
  | [] => []
  | [x] => jsonDumpsVal x
  | x :: y :: rest => jsonDumpsVal x ++ (", ".toList ++ jsonDumpsListInner (y :: rest))

/-- Comma-separated `json.dumps` of dict entries. -/
def jsonDumpsDictInner : List (Str × PyVal) → Str
  | [] => []
  | [(k, v)] => jsonQuoteStr k ++ (": ".toList ++ jsonDumpsVal v)
  | (k, v) :: p :: rest =>
      jsonQuoteStr k ++ (": ".toList ++ jsonDumpsVal v) ++
        (", ".toList ++ jsonDumpsDictInner (p :: rest))

end

/-- `json.dumps(v)` with optional `sort_keys=True`. -/
def jsonDumps (sortKeys : Bool) (v : PyVal) : Str :=
  jsonDumpsVal (if sortKeys then sortDictsVal v else v)

/-- Whitespace skipped by the JSON scanner. -/
def isJsonWs (c : Char) : Bool := c == ' ' || c == '\t' || c == '\n' || c == '\r'

/-- Skip JSON whitespace. -/
def skipJsonWs (s : Str) : Str := s.dropWhile isJsonWs

/-- Natural number denoted by a digit string. -/
def digitsToNat (ds : Str) : Nat := ds.foldl (fun acc c => acc * 10 + (c.toNat - 48)) 0

/-- Complete a JSON number after its integer part: optional fraction and
exponent; an integer lexeme yields a Python `int`, otherwise a float. -/
def jsonNumFinish (neg : Bool) (ip : Str) (rest : Str) : PyVal × Str :=
  let fr : Str × Str :=
    match rest with
    | '.' :: r =>
      let ds := r.takeWhile Char.isDigit
      if ds.isEmpty then ([], rest) else ('.' :: ds, r.dropWhile Char.isDigit)
    | _ => ([], rest)
  let rest1 := fr.2
  let ex : Str × Str :=
    match rest1 with
    | c :: r =>
      if c = 'e' ∨ c = 'E' then
        match r with
        | s :: r2 =>
          if s = '+' ∨ s = '-' then
            let ds := r2.takeWhile Char.isDigit
            if ds.isEmpty then ([], rest1) else (c :: s :: ds, r2.dropWhile Char.isDigit)
          else
            let ds := r.takeWhile Char.isDigit
            if ds.isEmpty then ([], rest1) else (c :: ds, r.dropWhile Char.isDigit)
        | [] => ([], rest1)
      else ([], rest1)
    | [] => ([], rest1)
  if fr.1.isEmpty ∧ ex.1.isEmpty then
    (PyVal.pyint (if neg then -(Int.ofNat (digitsToNat ip)) else Int.ofNat (digitsToNat ip)), ex.2)
  else
    (PyVal.pyfloat ((if neg then ['-'] else []) ++ ip ++ fr.1 ++ ex.1), ex.2)

/-- JSON number parser (the scanner's `NUMBER_RE`): `-?(0|[1-9][0-9]*)`
with optional fraction and exponent. -/
def jsonParseNumber (s : Str) : Option (PyVal × Str) :=
  let p : Bool × Str :=
    match s with
    | '-' :: r => (true, r)
    | r => (false, r)
  match p.2 with
  | c :: r =>
    if c = '0' then some (jsonNumFinish p.1 [c] r)
    else if c.isDigit then
      some (jsonNumFinish p.1 (c :: r.takeWhile Char.isDigit) (r.dropWhile Char.isDigit))
    else none
  | [] => none

/-- JSON string body parser (after the opening quote), strict mode:
control characters are rejected, standard escapes and `\uXXXX`
(including surrogate pairs) are decoded; a lone surrogate is accepted as
by CPython but carried as U+FFFD, which no claim observes. -/
def jsonParseStringAux : Nat → Str → Option (Str × Str)
  | 0, _ => none
  | _, [] => none
  | fuel + 1, c :: rest =>
    if c = '"' then some ([], rest)
    else if c = '\\' then
      match rest with
      | [] => none
      | e :: r2 =>
        if e = '"' then (jsonParseStringAux fuel r2).map (fun p => ('"' :: p.1, p.2))
        else if e = '\\' then (jsonParseStringAux fuel r2).map (fun p => ('\\' :: p.1, p.2))
        else if e = '/' then (jsonParseStringAux fuel r2).map (fun p => ('/' :: p.1, p.2))
        else if e = 'b' then (jsonParseStringAux fuel r2).map (fun p => (Char.ofNat 8 :: p.1, p.2))
        else if e = 'f' then (jsonParseStringAux fuel r2).map (fun p => (Char.ofNat 12 :: p.1, p.2))
        else if e = 'n' then (jsonParseStringAux fuel r2).map (fun p => ('\n' :: p.1, p.2))
        else if e = 'r' then (jsonParseStringAux fuel r2).map (fun p => ('\r' :: p.1, p.2))
        else if e = 't' then (jsonParseStringAux fuel r2).map (fun p => ('\t' :: p.1, p.2))
        else if e = 'u' then
          match r2 with
          | h1 :: h2 :: h3 :: h4 :: r3 =>
            match hexVal h1, hexVal h2, hexVal h3, hexVal h4 with
            | some a, some b, some c2, some d =>
              let cp := ((a * 16 + b) * 16 + c2) * 16 + d
              if 55296 ≤ cp ∧ cp ≤ 56319 then
                match r3 with
                | '\\' :: 'u' :: g1 :: g2 :: g3 :: g4 :: r4 =>
                  (match hexVal g1, hexVal g2, hexVal g3, hexVal g4 with
                   | some w, some x, some y, some z =>
                     let lo := ((w * 16 + x) * 16 + y) * 16 + z
                     if 56320 ≤ lo ∧ lo ≤ 57343 then
                       (jsonParseStringAux fuel r4).map
                         (fun p => (Char.ofNat (65536 + (cp - 55296) * 1024 + (lo - 56320)) :: p.1, p.2))
                     else (jsonParseStringAux fuel r3).map (fun p => (Char.ofNat 65533 :: p.1, p.2))
                   | _, _, _, _ =>
                     (jsonParseStringAux fuel r3).map (fun p => (Char.ofNat 65533 :: p.1, p.2)))
                | _ => (jsonParseStringAux fuel r3).map (fun p => (Char.ofNat 65533 :: p.1, p.2))
              else if 56320 ≤ cp ∧ cp ≤ 57343 then
                (jsonParseStringAux fuel r3).map (fun p => (Char.ofNat 65533 :: p.1, p.2))
              else
                (jsonParseStringAux fuel r3).map (fun p => (Char.ofNat cp :: p.1, p.2))
            | _, _, _, _ => none
          | _ => none
        else none
    else if c.toNat < 32 then none
    else (jsonParseStringAux fuel rest).map (fun p => (c :: p.1, p.2))

mutual

/-- JSON value parser (the scanner of `json.loads`, default decoder:
objects, arrays, strings, numbers, literals, and the default
`parse_constant` names). -/
def jsonParseValue : Nat → Str → Option (PyVal × Str)
  | 0, _ => none
  | fuel + 1, s =>
    match s with
    | [] => none
    | c :: rest =>
      if c = '"' then
        (jsonParseStringAux (rest.length + 1) rest).map (fun p => (PyVal.pystr p.1, p.2))
      else if c = Char.ofNat 123 then
        match skipJsonWs rest with
        | d :: r1 => if d = Char.ofNat 125 then some (.pydict [], r1) else jsonParseMembers fuel [] (skipJsonWs rest)
        | [] => none
      else if c = '[' then
        match skipJsonWs rest with
        | d :: r1 => if d = ']' then some (.pylist [], r1) else jsonParseElems fuel [] (skipJsonWs rest)
        | [] => none
      else if "true".toList.isPrefixOf s then some (.pybool true, s.drop 4)
      else if "false".toList.isPrefixOf s then some (.pybool false, s.drop 5)
      else if "null".toList.isPrefixOf s then some (.pynone, s.drop 4)
      else if "NaN".toList.isPrefixOf s then some (.pyfloat "NaN".toList, s.drop 3)
      else if "Infinity".toList.isPrefixOf s then some (.pyfloat "Infinity".toList, s.drop 8)
      else if "-Infinity".toList.isPrefixOf s then some (.pyfloat "-Infinity".toList, s.drop 9)
      else jsonParseNumber s

/-- JSON object member loop (at a position expecting a key string);
duplicate keys overwrite in place as in a Python dict. -/
def jsonParseMembers : Nat → List (Str × PyVal) → Str → Option (PyVal × Str)
  | 0, _, _ => none
  | fuel + 1, acc, s =>
    match s with
    | c :: rest =>
      if c = '"' then
        match jsonParseStringAux (rest.length + 1) rest with
        | some (key, r1) =>
          match skipJsonWs r1 with
          | ':' :: r2 =>
            match jsonParseValue fuel (skipJsonWs r2) with
            | some (v, r3) =>
              let acc2 := dictInsert acc key v
              match skipJsonWs r3 with
              | ',' :: r4 => jsonParseMembers fuel acc2 (skipJsonWs r4)
              | d :: r4 => if d = Char.ofNat 125 then some (.pydict acc2, r4) else none
              | [] => none
            | none => none
          | _ => none
        | none => none
      else none
    | [] => none

/-- JSON array element loop (at a position expecting a value). -/
def jsonParseElems : Nat → List PyVal → Str → Option (PyVal × Str)
  | 0, _, _ => none
  | fuel + 1, acc, s =>
    match jsonParseValue fuel s with
    | some (v, r1) =>
      match skipJsonWs r1 with
      | ',' :: r2 => jsonParseElems fuel (acc ++ [v]) (skipJsonWs r2)
      | ']' :: r2 => some (.pylist (acc ++ [v]), r2)
      | _ => none
    | none => none

end

/-- Model of `json.loads`: parse one value, allow surrounding whitespace,
reject anything else (`JSONDecodeError` becomes `none`).  CPython's
recursion-limit `RecursionError` on pathologically nested input is not
modelled (a resource limit, like stack exhaustion elsewhere). -/
def jsonLoads (s : Str) : Option PyVal :=
  let t := skipJsonWs s
  match jsonParseValue (t.length * 2 + 4) t with
  | some (v, rest) => if (skipJsonWs rest).isEmpty then some v else none
  | none => none

/-- Characters allowed after the first in a URL scheme
(`urllib.parse.scheme_chars`). -/
def urlSchemeChar (c : Char) : Bool :=
  c.isAlpha || c.isDigit || c == '+' || c == '-' || c == '.'

/-- Scheme extraction of `urllib.parse.urlsplit`. -/
def urlSplitScheme (url : Str) : Str × Str :=
  match splitOnceChar ':' url with
  | none => ([], url)
  | some (before, after) =>
    match before with
    | [] => ([], url)
    | c0 :: _ =>
      if c0.isAlpha && before.all urlSchemeChar then (pyLower before, after)
      else ([], url)

/-- The components of `urllib.parse.urlparse` this development reads
(path and fragment are split off but not kept). -/
structure UrlParts where
  scheme : Str
  netloc : Str
  query : Str

/-- Model of `urllib.parse.urlparse` for the URIs this development
handles (no IPv6 bracket hosts, no params splitting — the source never
produces either). -/
def pyUrlparse (url : Str) : UrlParts :=
  let sp := urlSplitScheme url
  let netRest : Str × Str :=
    match sp.2 with
    | '/' :: '/' :: r =>
      (r.takeWhile (fun c => c ≠ '/' ∧ c ≠ '?' ∧ c ≠ '#'),
       r.dropWhile (fun c => c ≠ '/' ∧ c ≠ '?' ∧ c ≠ '#'))
    | r => ([], r)
  let afterFrag : Str :=
    match splitOnceChar '#' netRest.2 with
    | some (u, _) => u
    | none => netRest.2
  let query : Str :=
    match splitOnceChar '?' afterFrag with
    | some (_, q) => q
    | none => []
  ⟨sp.1, netRest.1, query⟩

/-- `ParseResult.username`: userinfo before the last `@`, cut at the
first `:`; `None` when the netloc has no `@`. -/
def urlUsername (u : UrlParts) : Option Str :=
  match rsplitOnceChar '@' u.netloc with
  | some (ui, _) =>
    some (match splitOnceChar ':' ui with
          | some (n, _) => n
          | none => ui)
  | none => none

/-- `ParseResult.hostname`: host part after the last `@`, before the
first `:`, lowercased; `None` when empty. -/
def urlHostname (u : UrlParts) : Option Str :=
  let hostinfo :=
    match rsplitOnceChar '@' u.netloc with
    | some (_, h) => h
    | none => u.netloc
  let host :=
    match splitOnceChar ':' hostinfo with
    | some (h, _) => h
    | none => hostinfo
  if host.isEmpty then none else some (pyLower host)

/-- `ParseResult.port`: digits after the `:` of the host part; absent or
empty gives `None`; a non-numeric or out-of-range port raises
`ValueError` (underscored int literals, which the source never meets,
are not modelled). -/
def urlPort (u : UrlParts) : PyEx (Option Nat) :=
  let hostinfo :=
    match rsplitOnceChar '@' u.netloc with
    | some (_, h) => h
    | none => u.netloc
  match splitOnceChar ':' hostinfo with
  | none => .ret none
  | some (_, p) =>
    if p.isEmpty then .ret none
    else if p.all Char.isDigit then
      if digitsToNat p ≤ 65535 then .ret (some (digitsToNat p))
      else .raise ("ValueError: Port out of range 0-65535".toList)
    else .raise ("ValueError: Port could not be cast to integer value".toList)

/-- `\w` of Python `re` restricted to ASCII (all characters these
patterns meet in this development are ASCII or fail both ways). -/
def wordChar (c : Char) : Bool := c.isAlpha || c.isDigit || c == '_'

/-- The character class `[\w\d\.-]` of the source's host patterns. -/
def hostClassChar (c : Char) : Bool := wordChar c || c == '.' || c == '-'

/-- The character class `[\w\d-]` of the source's uuid pattern. -/
def uuidClassChar (c : Char) : Bool := wordChar c || c == '-'

/-- Match `([\w\d\.-]+):(\d+)` anchored at the start of `s`.  The classes
exclude `:`, so the greedy runs admit no backtracking: a position
matches exactly when its maximal class run is followed by `:` and a
digit. -/
def matchHostPortAt (s : Str) : Option (Str × Str) :=
  let run := s.takeWhile hostClassChar
  if run.isEmpty then none
  else
    match s.drop run.length with
    | ':' :: tail =>
      let ds := tail.takeWhile Char.isDigit
      if ds.isEmpty then none else some (run, ds)
    | _ => none

/-- `re.search(r'([\w\d\.-]+):(\d+)', s)`: leftmost match. -/
def searchHostPort : Str → Option (Str × Str)
  | [] => none
  | c :: rest =>
    match matchHostPortAt (c :: rest) with
    | some r => some r
    | none => searchHostPort rest

/-- Match `([\w\d-]+)@([\w\d\.-]+):(\d+)` anchored at the start of `s`
(class exclusions again make the greedy runs deterministic). -/
def matchUserHostPortAt (s : Str) : Option (Str × Str × Str) :=
  let run1 := s.takeWhile uuidClassChar
  if run1.isEmpty then none
  else
    match s.drop run1.length with
    | '@' :: t1 =>
      let run2 := t1.takeWhile hostClassChar
      if run2.isEmpty then none
      else
        match t1.drop run2.length with
        | ':' :: t2 =>
          let ds := t2.takeWhile Char.isDigit
          if ds.isEmpty then none else some (run1, run2, ds)
        | _ => none
    | _ => none

/-- `re.search(r'([\w\d-]+)@([\w\d\.-]+):(\d+)', s)`: leftmost match. -/
def searchUserHostPort : Str → Option (Str × Str × Str)
  | [] => none
  | c :: rest =>
    match matchUserHostPortAt (c :: rest) with
    | some r => some r
    | none => searchUserHostPort rest

/-- `re.match(r"trojan://[^@]+@([\w\d\.-]+):(\d+)", s)`: `[^@]+` is
greedy but cannot cross an `@`, so it reaches exactly the first `@`. -/
def matchTrojanRegex (s : Str) : Option (Str × Str) :=
  if "trojan://".toList.isPrefixOf s then
    let t := s.drop 9
    let ui := t.takeWhile (fun c => c ≠ '@')
    if ui.isEmpty then none
    else
      match t.drop ui.length with
      | '@' :: t1 =>
        let host := t1.takeWhile hostClassChar
        if host.isEmpty then none
        else
          match t1.drop host.length with
          | ':' :: t2 =>
            let ds := t2.takeWhile Char.isDigit
            if ds.isEmpty then none else some (host, ds)
          | _ => none
      | _ => none
  else none

/-- `re.match(r"tuic://([^:]+):([^@]+)@([\w\d\.-]+):(\d+)", s)`. -/
def matchTuicRegex (s : Str) : Option (Str × Str × Str × Str) :=
  if "tuic://".toList.isPrefixOf s then
    let t := s.drop 7
    let uuid := t.takeWhile (fun c => c ≠ ':')
    if uuid.isEmpty then none
    else
      match t.drop uuid.length with
      | ':' :: t1 =>
        let pw := t1.takeWhile (fun c => c ≠ '@')
        if pw.isEmpty then none
        else
          match t1.drop pw.length with
          | '@' :: t2 =>
            let host := t2.takeWhile hostClassChar
            if host.isEmpty then none
            else
              match t2.drop host.length with
              | ':' :: t3 =>
                let ds := t3.takeWhile Char.isDigit
                if ds.isEmpty then none else some (uuid, pw, host, ds)
              | _ => none
          | _ => none
      | _ => none
  else none

/-- `re.match(r'^[a-zA-Z]+://', line)` as a boolean. -/
def schemeHeadMatch (s : Str) : Bool :=
  let letters := s.takeWhile Char.isAlpha
  !letters.isEmpty && "://".toList.isPrefixOf (s.drop letters.length)

/-- The protocol whitelist of `_parse_raw_uri_line`, in source order. -/
def protoSchemes : List Str :=
  ["ss://".toList, "vmess://".toList, "trojan://".toList, "vless://".toList,
   "snell://".toList, "hysteria://".toList, "hysteria2://".toList, "tuic://".toList,
   "ssr://".toList, "http://".toList, "https://".toList, "socks5://".toList]

/-- The first whitelist entry the line starts with, as the source's
`for prefix in protocol_prefixes` loop finds it. -/
def firstProto (line : Str) : Option Str :=
  protoSchemes.find? (fun p => p.isPrefixOf line)

/-- The rule/comment heads filtered out by `_parse_raw_uri_line`. -/
def ruleLineHeads : List Str :=
  ["- DOMAIN-SUFFIX".toList, "- DOMAIN-KEYWORD".toList, "- IP-CIDR".toList,
   "- GEOIP".toList, "- PROCESS-NAME".toList, "- RULE-SET".toList,
   "- MATCH".toList, "#".toList]

/-- The line filter of `_parse_raw_uri_line` (lines 174-175 of
process_subscriptions.py): rule heads, Telegram ads, any line containing
`name:` in lower case, and lines not starting with a scheme head. -/
def noiseLine (line : Str) : Bool :=
  ruleLineHeads.any (fun p => p.isPrefixOf line) ||
    containsSub line ("→ tg@".toList) ||
    containsSub (pyLower line) ("name:".toList) ||
    !(schemeHeadMatch line)

/-- `d.get(k, dflt)` with a `PyVal` default. -/
def pyGetD (d : List (Str × PyVal)) (k : Str) (dflt : PyVal) : PyVal :=
  match pyDictGet d k with
  | some v => v
  | none => dflt

/-- Outcome of one scheme branch inside `_parse_raw_uri_line`: a
`(dedup_id, node_uri)` pair was returned, `None` was returned (vmess
fallback), or control fell through to the generic return at the end of
the prefix block. -/
inductive SchemeOutcome where
  | pair (k v : Str)
  | drop
  | fall
deriving DecidableEq, Repr

/-- The base64 branch of `_parse_raw_uri_line` (lines 192-252) for the
`ss://`, `vmess://`, `vless://` prefixes: ASCII-encode the payload after
the prefix (`UnicodeEncodeError` is caught and falls through), append
`b'=='`, decode non-strict base64 (`binascii.Error` is caught and falls
through), decode text as UTF-8 with latin-1 fallback, then try JSON;
on `JSONDecodeError` the `ss`/`vless` regex fallbacks run.  `.ret none`
means control continues with the traditional URI parsing. -/
def b64TrioAttempt (pfx nodeUri : Str) : PyEx (Option (Str × Str)) :=
  let encodedPart := nodeUri.drop pfx.length
  if !(allAscii encodedPart) then .ret none
  else
    match a2bBase64 (encodedPart ++ "==".toList) with
    | .raise _ => .ret none
    | .ret decodedBytes =>
      let decodedContent := textFromBytes decodedBytes
      match jsonLoads decodedContent with
      | some (.pydict d) =>
        let add := pyGetD d ("add".toList) PyVal.pynone
        let server := if pyTruthy add then add else pyGetD d ("server".toList) PyVal.pynone
        let port := pyGetD d ("port".toList) PyVal.pynone
        if pfx = "vmess://".toList then
          let uuid := pyGetD d ("id".toList) (PyVal.pystr [])
          if pyTruthy server && pyTruthy port && pyTruthy uuid then
            .ret (some ("vmess://".toList ++ pyStrVal uuid ++ ['@'] ++ pyStrVal server
              ++ [':'] ++ pyStrVal port, nodeUri))
          else .ret none
        else if pfx = "vless://".toList then
          let uuid0 := pyGetD d ("id".toList) (PyVal.pystr [])
          let uuid := if pyTruthy uuid0 then uuid0 else pyGetD d ("uuid".toList) (PyVal.pystr [])
          if pyTruthy server && pyTruthy port && pyTruthy uuid then
            .ret (some ("vless://".toList ++ pyStrVal uuid ++ ['@'] ++ pyStrVal server
              ++ [':'] ++ pyStrVal port, nodeUri))
          else .ret none
        else
          if pyTruthy server && pyTruthy port then
            .ret (some ("ss://".toList ++ pyStrVal server ++ [':'] ++ pyStrVal port, nodeUri))
          else .ret none
      | some _ => .raise ("AttributeError: get on a non-dict JSON value".toList)
      | none =>
        if pfx = "ss://".toList then
          match searchHostPort decodedContent with
          | some (server, port) =>
            .ret (some ("ss://".toList ++ server ++ [':'] ++ port, nodeUri))
          | none => .ret none
        else if pfx = "vless://".toList then
          match searchUserHostPort decodedContent with
          | some (uuid, server, port) =>
            .ret (some ("vless://".toList ++ uuid ++ ['@'] ++ server ++ [':'] ++ port, nodeUri))
          | none => .ret none
        else .ret none

/-- The traditional (non-base64) per-scheme parsing of
`_parse_raw_uri_line` (lines 254-339). -/
def traditionalParse (pfx nodeUri : Str) : PyEx SchemeOutcome :=
  if pfx = "ss://".toList then
    let serverPartWithTag :=
      match splitOnceChar '@' (nodeUri.drop 5) with
      | some (_, after) => after
      | none => nodeUri.drop 5
    match searchHostPort serverPartWithTag with
    | some (server, port) =>
      .ret (.pair ("ss://".toList ++ server ++ [':'] ++ port) nodeUri)
    | none => .ret .fall
  else if pfx = "vmess://".toList then
    .ret .drop
  else if pfx = "trojan://".toList then
    match matchTrojanRegex nodeUri with
    | some (server, port) =>
      .ret (.pair ("trojan://".toList ++ server ++ [':'] ++ port) nodeUri)
    | none => .ret .fall
  else if pfx = "vless://".toList then
    let u := pyUrlparse nodeUri
    let uuid := match urlUsername u with
      | some s => s
      | none => []
    match urlPort u with
    | .raise e => .raise e
    | .ret portOpt =>
      match urlHostname u, portOpt with
      | some server, some port =>
        if uuid.isEmpty || port == 0 then .ret .fall
        else .ret (.pair ("vless://".toList ++ uuid ++ ['@'] ++ server ++ [':'] ++ natToStr port) nodeUri)
      | _, _ => .ret .fall
  else if pfx = "http://".toList ∨ pfx = "https://".toList then
    let u := pyUrlparse nodeUri
    match urlPort u with
    | .raise e => .raise e
    | .ret portOpt =>
      match urlHostname u, portOpt with
      | some server, some port =>
        if port == 0 then .ret .fall
        else .ret (.pair (u.scheme ++ "://".toList ++ server ++ [':'] ++ natToStr port) nodeUri)
      | _, _ => .ret .fall
  else if pfx = "socks5://".toList then
    let u := pyUrlparse nodeUri
    match urlPort u with
    | .raise e => .raise e
    | .ret portOpt =>
      match urlHostname u, portOpt with
      | some server, some port =>
        if port == 0 then .ret .fall
        else .ret (.pair ("socks5://".toList ++ server ++ [':'] ++ natToStr port) nodeUri)
      | _, _ => .ret .fall
  else if pfx = "snell://".toList then
    let u := pyUrlparse nodeUri
    let psk := parseQsGetFirst u.query ("psk".toList)
    match urlPort u with
    | .raise e => .raise e
    | .ret portOpt =>
      match urlHostname u, portOpt with
      | some server, some port =>
        if port == 0 || psk.isEmpty then .ret .fall
        else .ret (.pair ("snell://".toList ++ server ++ [':'] ++ natToStr port
          ++ "?psk=".toList ++ psk) nodeUri)
      | _, _ => .ret .fall
  else if pfx = "hysteria://".toList then
    let u := pyUrlparse nodeUri
    let auth := parseQsGetFirst u.query ("auth".toList)
    match urlPort u with
    | .raise e => .raise e
    | .ret portOpt =>
      match urlHostname u, portOpt with
      | some server, some port =>
        if port == 0 || auth.isEmpty then .ret .fall
        else .ret (.pair ("hysteria://".toList ++ server ++ [':'] ++ natToStr port
          ++ "?auth=".toList ++ auth) nodeUri)
      | _, _ => .ret .fall
  else if pfx = "hysteria2://".toList then
    let u := pyUrlparse nodeUri
    let password := pyUnquote (match urlUsername u with
      | some s => s
      | none => [])
    match urlPort u with
    | .raise e => .raise e
    | .ret portOpt =>
      match urlHostname u, portOpt with
      | some server, some port =>
        if port == 0 || password.isEmpty then .ret .fall
        else .ret (.pair ("hysteria2://".toList ++ password ++ ['@'] ++ server
          ++ [':'] ++ natToStr port) nodeUri)
      | _, _ => .ret .fall
  else if pfx = "tuic://".toList then
    match matchTuicRegex nodeUri with
    | some (uuid, pw, server, port) =>
      .ret (.pair ("tuic://".toList ++ uuid ++ [':'] ++ pw ++ ['@'] ++ server
        ++ [':'] ++ port) nodeUri)
    | none => .ret .fall
  else if pfx = "ssr://".toList then
    let b64part := nodeUri.drop 6
    if !(allAscii b64part) then .ret .fall
    else
      match a2bBase64 (b64part ++ "==".toList) with
      | .raise _ => .ret .fall
      | .ret bs =>
        match utf8Decode bs with
        | none => .ret .fall
        | some decoded =>
          let parts := splitChar ':' decoded
          if parts.length ≥ 5 then
            match parts with
            | server :: port :: _ =>
              .ret (.pair ("ssr://".toList ++ server ++ [':'] ++ port) nodeUri)
            | _ => .ret .fall
          else .ret .fall
  else .ret .fall

/-- Dispatch of one matched prefix inside `_parse_raw_uri_line`: the
base64 trio first tries the base64 branch, every scheme then runs its
traditional parsing; any branch may return a pair, return `None` (vmess)
or fall through to the generic return. -/
def tryScheme (pfx nodeUri : Str) : PyEx SchemeOutcome :=
  if pfx = "ss://".toList ∨ pfx = "vmess://".toList ∨ pfx = "vless://".toList then
    match b64TrioAttempt pfx nodeUri with
    | .raise e => .raise e
    | .ret (some p) => .ret (.pair p.1 p.2)
    | .ret none => traditionalParse pfx nodeUri
  else traditionalParse pfx nodeUri

/-- Model of `_parse_raw_uri_line` (process_subscriptions.py lines
164-348).  `.ret none` is the Python `return None`; a returned pair is
`(dedup_id, node_uri)`; `.raise` is an exception escaping the function
(the source catches none at this level). -/
def parseRawUriLine (line : Str) : PyEx (Option (Str × Str)) :=
  if line.isEmpty then .ret none
  else if noiseLine line then .ret none
  else
    match firstProto line with
    | none => .ret none
    | some pfx =>
      let nodeUri := pyStrip line
      match tryScheme pfx nodeUri with
      | .raise e => .raise e
      | .ret (.pair k v) => .ret (some (k, v))
      | .ret .drop => .ret none
      | .ret .fall => .ret (some (pfx ++ nodeUri.take 100, nodeUri))

/-- The `name = proxy_entry.get('name', '').strip()` line: a present
non-string name raises `AttributeError` (no `.strip` on it). -/
def clashEntryName (e : List (Str × PyVal)) : PyEx Str :=
  match pyDictGet e ("name".toList) with
  | none => .ret []
  | some (.pystr s) => .ret (pyStrip s)
  | some _ => .raise ("AttributeError: strip on a non-string name".toList)

/-- `proxy_entry.get('ws-opts', {}).get('headers', {}).get('Host', '')`:
a truthy non-dict along the chain raises `AttributeError`. -/
def clashWsHost (e : List (Str × PyVal)) : PyEx PyVal :=
  match pyGetD e ("ws-opts".toList) (.pydict []) with
  | .pydict w =>
    match pyGetD w ("headers".toList) (.pydict []) with
    | .pydict h => .ret (pyGetD h ("Host".toList) (.pystr []))
    | _ => .raise ("AttributeError: get on a non-dict headers value".toList)
  | _ => .raise ("AttributeError: get on a non-dict ws-opts value".toList)

/-- `proxy_entry.get('ws-opts', {}).get('path', '')`. -/
def clashWsPath (e : List (Str × PyVal)) : PyEx PyVal :=
  match pyGetD e ("ws-opts".toList) (.pydict []) with
  | .pydict w => .ret (pyGetD w ("path".toList) (.pystr []))
  | _ => .raise ("AttributeError: get on a non-dict ws-opts value".toList)

/-- The dict-comprehension filter of the vmess reconstruction:
`{k: v for k, v in ... if v not in ["", 0, False, "none", "tcp"]}`
(`in` uses Python `==`, identifying `False` with `0`). -/
def vmessFilterKeep (v : PyVal) : Bool :=
  !([PyVal.pystr [], PyVal.pyint 0, PyVal.pybool false,
     PyVal.pystr ("none".toList), PyVal.pystr ("tcp".toList)].any (fun w => pyEqVal v w))

/-- `','.join(x)`: joins list elements (each must be a string, else
`TypeError`); joining a string joins its characters. -/
def joinCommaPy (v : PyVal) : PyEx Str :=
  match v with
  | .pylist xs =>
    let rec go : List PyVal → PyEx (List Str)
      | [] => .ret []
      | .pystr s :: rest =>
        match go rest with
        | .raise e => .raise e
        | .ret ss => .ret (s :: ss)
      | _ :: _ => .raise ("TypeError: sequence item: expected str instance".toList)
    match go xs with
    | .raise e => .raise e
    | .ret ss => .ret (joinSep [','] ss)
  | .pystr s => .ret (joinSep [','] (s.map (fun c => [c])))
  | _ => .raise ("TypeError: can only join an iterable".toList)

/-- `urllib.parse.quote` applied to a value that must be a string
(`TypeError` otherwise). -/
def pyQuoteVal (v : PyVal) : PyEx Str :=
  match v with
  | .pystr s => .ret (pyQuote s)
  | _ => .raise ("TypeError: quote of a non-string".toList)

/-- The `ss` branch of `_parse_clash_proxy_entry` (lines 34-44). -/
def clashSS (e : List (Str × PyVal)) (server port : PyVal) (name : Str) :
    PyEx (Option (Option Str × Str)) :=
  let cipher := pyGetD e ("cipher".toList) .pynone
  let password := pyGetD e ("password".toList) .pynone
  if pyTruthy cipher && pyTruthy password then
    let authPart := rstripChar '='
      (urlsafeB64Encode (utf8Encode (pyStrVal cipher ++ [':'] ++ pyStrVal password)))
    let base := "ss://".toList ++ authPart ++ ['@'] ++ pyStrVal server ++ [':'] ++ pyStrVal port
    let nodeUri := if name.isEmpty then base else base ++ ['#'] ++ pyQuote name
    .ret (some (some ("ss://".toList ++ pyStrVal server ++ [':'] ++ pyStrVal port), nodeUri))
  else .ret none

/-- The `vmess` branch of `_parse_clash_proxy_entry` (lines 46-72): the
JSON config is filtered of default values; `vmess_config['id']` after
the filter raises `KeyError` when the uuid was empty, which the source
catches, leaving `dedup_id = None` while `node_uri` is already set. -/
def clashVmess (e : List (Str × PyVal)) (server port : PyVal) (name : Str) :
    PyEx (Option (Option Str × Str)) :=
  match clashWsHost e with
  | .raise m => .raise m
  | .ret host =>
    match clashWsPath e with
    | .raise m => .raise m
    | .ret path =>
      let cfg0 : List (Str × PyVal) :=
        [("v".toList, .pystr ("2".toList)),
         ("ps".toList, .pystr name),
         ("add".toList, server),
         ("port".toList, port),
         ("id".toList, pyGetD e ("uuid".toList) (.pystr [])),
         ("aid".toList, pyGetD e ("alterId".toList) (.pyint 0)),
         ("scy".toList, pyGetD e ("cipher".toList) (.pystr ("auto".toList))),
         ("net".toList, pyGetD e ("network".toList) (.pystr ("tcp".toList))),
         ("type".toList, pyGetD e ("type".toList) (.pystr ("none".toList))),
         ("host".toList, host),
         ("path".toList, path),
         ("tls".toList, if pyTruthy (pyGetD e ("tls".toList) .pynone)
            then .pystr ("tls".toList) else .pystr []),
         ("sni".toList, pyGetD e ("sni".toList) (.pystr [])),
         ("skip-cert-verify".toList, pyGetD e ("skip-cert-verify".toList) (.pybool false))]
      let cfg := cfg0.filter (fun p => vmessFilterKeep p.2)
      let vmessJson := jsonDumps false (.pydict cfg)
      let nodeUri := "vmess://".toList ++ rstripChar '=' (b64Encode (utf8Encode vmessJson))
      let dedup : Option Str :=
        match pyDictGet cfg ("id".toList) with
        | some idv => some ("vmess://".toList ++ pyStrVal idv ++ ['@']
            ++ pyStrVal server ++ [':'] ++ pyStrVal port)
        | none => none
      .ret (some (dedup, nodeUri))

/-- The `trojan` branch of `_parse_clash_proxy_entry` (lines 74-82). -/
def clashTrojan (e : List (Str × PyVal)) (server port : PyVal) (name : Str) :
    PyEx (Option (Option Str × Str)) :=
  let password := pyGetD e ("password".toList) .pynone
  if pyTruthy password then
    let u0 := "trojan://".toList ++ pyStrVal password ++ ['@'] ++ pyStrVal server
      ++ [':'] ++ pyStrVal port
    let u1 := if pyTruthy (pyGetD e ("tls".toList) .pynone)
      then u0 ++ "?tls=true".toList else u0
    let u2 := if pyTruthy (pyGetD e ("skip-cert-verify".toList) .pynone)
      then u1 ++ "&skip-cert-verify=true".toList else u1
    let u3 := if pyTruthy (pyGetD e ("sni".toList) .pynone)
      then u2 ++ "&sni=".toList ++ pyStrVal (pyGetD e ("sni".toList) .pynone) else u2
    let u4 := if name.isEmpty then u3 else u3 ++ ['#'] ++ pyQuote name
    .ret (some (some ("trojan://".toList ++ pyStrVal server ++ [':'] ++ pyStrVal port), u4))
  else .ret none

/-- The `vless` branch of `_parse_clash_proxy_entry` (lines 84-99). -/
def clashVless (e : List (Str × PyVal)) (server port : PyVal) (name : Str) :
    PyEx (Option (Option Str × Str)) :=
  let uuid := pyGetD e ("uuid".toList) .pynone
  if pyTruthy uuid then
    let p1 : List Str :=
      if pyTruthy (pyGetD e ("tls".toList) .pynone) then ["tls=true".toList] else []
    let p2 : List Str :=
      if pyTruthy (pyGetD e ("skip-cert-verify".toList) .pynone)
      then ["skip-cert-verify=true".toList] else []
    let network := pyGetD e ("network".toList) .pynone
    let p3 : List Str :=
      if pyTruthy network then ["type=".toList ++ pyStrVal network] else []
    let wsOpts := pyGetD e ("ws-opts".toList) .pynone
    let pPath : PyEx (List Str) :=
      if pyTruthy wsOpts then
        match wsOpts with
        | .pydict w =>
          let p := pyGetD w ("path".toList) .pynone
          if pyTruthy p then .ret ["path=".toList ++ pyStrVal p] else .ret []
        | _ => .raise ("AttributeError: get on a non-dict ws-opts value".toList)
      else .ret []
    match pPath with
    | .raise m => .raise m
    | .ret p4 =>
      let pHost : PyEx (List Str) :=
        if pyTruthy wsOpts then
          match wsOpts with
          | .pydict w =>
            let hd := pyGetD w ("headers".toList) .pynone
            if pyTruthy hd then
              match hd with
              | .pydict h =>
                if h.any (fun p => p.1 == "Host".toList) then
                  .ret ["host=".toList ++ pyStrVal (pyGetD h ("Host".toList) .pynone)]
                else .ret []
              | .pystr s =>
                if containsSub s ("Host".toList) then
                  .raise ("TypeError: string indices must be integers".toList)
                else .ret []
              | _ => .raise ("TypeError: argument of type is not iterable".toList)
            else .ret []
          | _ => .raise ("AttributeError: get on a non-dict ws-opts value".toList)
        else .ret []
      match pHost with
      | .raise m => .raise m
      | .ret p5 =>
        let params := p1 ++ p2 ++ p3 ++ p4 ++ p5
        let query := if params.isEmpty then [] else '?' :: joinSep ['&'] params
        let base := "vless://".toList ++ pyStrVal uuid ++ ['@'] ++ pyStrVal server
          ++ [':'] ++ pyStrVal port ++ query
        let nodeUri := if name.isEmpty then base else base ++ ['#'] ++ pyQuote name
        .ret (some (some ("vless://".toList ++ pyStrVal uuid ++ ['@'] ++ pyStrVal server
          ++ [':'] ++ pyStrVal port), nodeUri))
  else .ret none

/-- The `hysteria` branch of `_parse_clash_proxy_entry` (lines 101-121). -/
def clashHysteria (e : List (Str × PyVal)) (server port : PyVal) (name : Str) :
    PyEx (Option (Option Str × Str)) :=
  let password := pyGetD e ("password".toList) .pynone
  if pyTruthy password then
    let auth := pyGetD e ("auth".toList) .pynone
    let p1 : List Str := if pyTruthy auth then ["auth=".toList ++ pyStrVal auth] else []
    let alpn := pyGetD e ("alpn".toList) .pynone
    let pAlpn : PyEx (List Str) :=
      if pyTruthy alpn then
        match joinCommaPy alpn with
        | .raise m => .raise m
        | .ret j => .ret ["alpn=".toList ++ j]
      else .ret []
    match pAlpn with
    | .raise m => .raise m
    | .ret p2 =>
      let p3 : List Str :=
        if pyTruthy (pyGetD e ("fast-open".toList) .pynone) then ["fastopen=true".toList] else []
      let p4 : List Str :=
        if pyTruthy (pyGetD e ("mptcp".toList) .pynone) then ["mptcp=true".toList] else []
      let obfs := pyGetD e ("obfs".toList) .pynone
      let p5 : List Str := if pyTruthy obfs then ["obfs=".toList ++ pyStrVal obfs] else []
      let obfsPw := pyGetD e ("obfs-password".toList) .pynone
      let p6 : List Str :=
        if pyTruthy obfsPw then ["obfs-password=".toList ++ pyStrVal obfsPw] else []
      let up := pyGetD e ("up".toList) .pynone
      let p7 : List Str := if pyTruthy up then ["upmbps=".toList ++ pyStrVal up] else []
      let down := pyGetD e ("down".toList) .pynone
      let p8 : List Str := if pyTruthy down then ["downmbps=".toList ++ pyStrVal down] else []
      let p9 : List Str :=
        if pyTruthy (pyGetD e ("tls".toList) .pynone) then ["tls=true".toList] else []
      let p10 : List Str :=
        if pyTruthy (pyGetD e ("skip-cert-verify".toList) .pynone) then ["insecure=1".toList] else []
      let sni := pyGetD e ("sni".toList) .pynone
      let p11 : List Str := if pyTruthy sni then ["sni=".toList ++ pyStrVal sni] else []
      let params := p1 ++ p2 ++ p3 ++ p4 ++ p5 ++ p6 ++ p7 ++ p8 ++ p9 ++ p10 ++ p11
      let query := if params.isEmpty then [] else '?' :: joinSep ['&'] params
      let base := "hysteria://".toList ++ pyStrVal server ++ [':'] ++ pyStrVal port ++ query
      let nodeUri := if name.isEmpty then base else base ++ ['#'] ++ pyQuote name
      let dedup0 := "hysteria://".toList ++ pyStrVal server ++ [':'] ++ pyStrVal port
      let dedup := if pyTruthy auth then dedup0 ++ "?auth=".toList ++ pyStrVal auth else dedup0
      .ret (some (some dedup, nodeUri))
  else .ret none

/-- The `hysteria2` branch of `_parse_clash_proxy_entry` (lines 123-134). -/
def clashHysteria2 (e : List (Str × PyVal)) (server port : PyVal) (name : Str) :
    PyEx (Option (Option Str × Str)) :=
  let password := pyGetD e ("password".toList) .pynone
  if pyTruthy password then
    let p1 : List Str :=
      if pyTruthy (pyGetD e ("tls".toList) .pynone) then ["tls=true".toList] else []
    let p2 : List Str :=
      if pyTruthy (pyGetD e ("skip-cert-verify".toList) .pynone) then ["insecure=1".toList] else []
    let sni := pyGetD e ("sni".toList) .pynone
    let p3 : List Str := if pyTruthy sni then ["sni=".toList ++ pyStrVal sni] else []
    let params := p1 ++ p2 ++ p3
    let query := if params.isEmpty then [] else '?' :: joinSep ['&'] params
    match pyQuoteVal password with
    | .raise m => .raise m
    | .ret q =>
      let base := "hysteria2://".toList ++ q ++ ['@'] ++ pyStrVal server
        ++ [':'] ++ pyStrVal port ++ query
      let nodeUri := if name.isEmpty then base else base ++ ['#'] ++ pyQuote name
      .ret (some (some ("hysteria2://".toList ++ pyStrVal password ++ ['@']
        ++ pyStrVal server ++ [':'] ++ pyStrVal port), nodeUri))
  else .ret none

/-- The `tuic` branch of `_parse_clash_proxy_entry` (lines 136-152). -/
def clashTuic (e : List (Str × PyVal)) (server port : PyVal) (name : Str) :
    PyEx (Option (Option Str × Str)) :=
  let uuid := pyGetD e ("uuid".toList) .pynone
  let password := pyGetD e ("password".toList) .pynone
  if pyTruthy uuid && pyTruthy password then
    let version := pyGetD e ("version".toList) .pynone
    let p1 : List Str := if pyTruthy version then ["version=".toList ++ pyStrVal version] else []
    let cc := pyGetD e ("congestion-controller".toList) .pynone
    let p2 : List Str :=
      if pyTruthy cc then ["congestion_controller=".toList ++ pyStrVal cc] else []
    let urm := pyGetD e ("udp-relay-mode".toList) .pynone
    let p3 : List Str :=
      if pyTruthy urm then ["udp_relay_mode=".toList ++ pyStrVal urm] else []
    let p4 : List Str :=
      if pyTruthy (pyGetD e ("tls".toList) .pynone) then ["tls=true".toList] else []
    let p5 : List Str :=
      if pyTruthy (pyGetD e ("skip-cert-verify".toList) .pynone) then ["insecure=1".toList] else []
    let sni := pyGetD e ("sni".toList) .pynone
    let p6 : List Str := if pyTruthy sni then ["sni=".toList ++ pyStrVal sni] else []
    let alpn := pyGetD e ("alpn".toList) .pynone
    let pAlpn : PyEx (List Str) :=
      if pyTruthy alpn then
        match joinCommaPy alpn with
        | .raise m => .raise m
        | .ret j => .ret ["alpn=".toList ++ j]
      else .ret []
    match pAlpn with
    | .raise m => .raise m
    | .ret p7 =>
      let params := p1 ++ p2 ++ p3 ++ p4 ++ p5 ++ p6 ++ p7
      let query := if params.isEmpty then [] else '?' :: joinSep ['&'] params
      let base := "tuic://".toList ++ pyStrVal uuid ++ [':'] ++ pyStrVal password ++ ['@']
        ++ pyStrVal server ++ [':'] ++ pyStrVal port ++ query
      let nodeUri := if name.isEmpty then base else base ++ ['#'] ++ pyQuote name
      .ret (some (some ("tuic://".toList ++ pyStrVal uuid ++ [':'] ++ pyStrVal password
        ++ ['@'] ++ pyStrVal server ++ [':'] ++ pyStrVal port), nodeUri))
  else .ret none

/-- The per-type dispatch of `_parse_clash_proxy_entry` (the
`if p_type == 'ss' ... elif ...` chain, lines 34-152): `.ret none` means
no branch set `node_uri` (unrecognized type, or the selected branch's
guard failed), which the caller turns into the placeholder. -/
def clashBranchDispatch (e : List (Str × PyVal)) (pType server port : PyVal)
    (name : Str) : PyEx (Option (Option Str × Str)) :=
  if pyEqVal pType (.pystr ("ss".toList)) then clashSS e server port name
  else if pyEqVal pType (.pystr ("vmess".toList)) then clashVmess e server port name
  else if pyEqVal pType (.pystr ("trojan".toList)) then clashTrojan e server port name
  else if pyEqVal pType (.pystr ("vless".toList)) then clashVless e server port name
  else if pyEqVal pType (.pystr ("hysteria".toList)) then clashHysteria e server port name
  else if pyEqVal pType (.pystr ("hysteria2".toList)) then clashHysteria2 e server port name
  else if pyEqVal pType (.pystr ("tuic".toList)) then clashTuic e server port name
  else .ret none

/-- Model of `_parse_clash_proxy_entry` (process_subscriptions.py lines
16-161).  `.ret none` is the Python `return None` (missing server or
port); otherwise the result is `(dedup_id, node_uri)` where the
`dedup_id` may be Python `None` (the vmess `KeyError` path); an entry no
branch reconstructs becomes the `clash_unknown_` placeholder built from
`json.dumps(..., sort_keys=True)` and `str(proxy_entry)`. -/
def parseClashProxyEntry (e : List (Str × PyVal)) : PyEx (Option (Option Str × Str)) :=
  match clashEntryName e with
  | .raise m => .raise m
  | .ret name =>
    if !(pyTruthy (pyGetD e ("server".toList) .pynone)) ||
        !(pyTruthy (pyGetD e ("port".toList) .pynone)) then .ret none
    else
      match clashBranchDispatch e (pyGetD e ("type".toList) .pynone)
          (pyGetD e ("server".toList) .pynone) (pyGetD e ("port".toList) .pynone) name with
      | .raise m => .raise m
      | .ret (some r) => .ret (some r)
      | .ret none =>
        .ret (some (some ("clash_unknown_".toList ++ (jsonDumps true (.pydict e)).take 100),
          pyReprVal (.pydict e)))

/-- The YAML classification of `parse_nodes` (line 359):
`content.strip().startswith(...)` over the six manifest heads. -/
def yamlClassified (content : Str) : Bool :=
  ["proxies:".toList, "proxy-providers:".toList, "rules:".toList,
   "port:".toList, "mixed-port:".toList, "allow-lan:".toList].any
    (fun p => p.isPrefixOf (pyStrip content))

/-- The `proxies` loop of `parse_nodes` (lines 366-378): dict entries go
through `_parse_clash_proxy_entry`, string entries through
`_parse_raw_uri_line`, other entries are skipped.  An exception from
either parser aborts the loop (it is caught by the surrounding `except`,
keeping the entries collected so far — second component `true`). -/
def clashEntriesLoop : List PyVal → List (Option Str × Str) →
    List (Option Str × Str) × Bool
  | [], acc => (acc, false)
  | v :: rest, acc =>
    match v with
    | .pydict d =>
      match parseClashProxyEntry d with
      | .raise _ => (acc, true)
      | .ret none => clashEntriesLoop rest acc
      | .ret (some p) => clashEntriesLoop rest (acc ++ [p])
    | .pystr s =>
      match parseRawUriLine s with
      | .raise _ => (acc, true)
      | .ret none => clashEntriesLoop rest acc
      | .ret (some (k, u)) => clashEntriesLoop rest (acc ++ [(some k, u)])
    | _ => clashEntriesLoop rest acc

/-- The plain-line loop of `parse_nodes` (lines 397-400): each line is
stripped and fed to `_parse_raw_uri_line`; an exception here is not
caught and escapes `parse_nodes`. -/
def lineParseLoop : List Str → List (Option Str × Str) →
    PyEx (List (Option Str × Str))
  | [], acc => .ret acc
  | l :: rest, acc =>
    match parseRawUriLine (pyStrip l) with
    | .raise m => .raise m
    | .ret none => lineParseLoop rest acc
    | .ret (some (k, u)) => lineParseLoop rest (acc ++ [(some k, u)])

/-- Plain-line parsing of a whole payload (the non-YAML path of
`parse_nodes`). -/
def plainLineParse (content : Str) : PyEx (List (Option Str × Str)) :=
  lineParseLoop (pySplitlines content) []

/-- Model of `parse_nodes` (process_subscriptions.py lines 350-402),
parameterised by the external structured-manifest parser
(`yaml.safe_load`), which the spec treats as an external collaborator:
if the stripped content starts with a manifest head, the manifest parser
runs; a manifest-parser exception is caught and the same text is parsed
line by line; when the manifest parses, the `proxies` list (when the
result is a dict holding one) is converted entry by entry and
`parse_nodes` returns those nodes without line parsing; an exception
inside the entry loop is caught and line parsing appends to the
partial result.  Content not classified as a manifest is parsed line by
line. -/
def parse_nodes (yamlLoad : Str → PyEx PyVal) (content : Str) :
    PyEx (List (Option Str × Str)) :=
  if yamlClassified content then
    match yamlLoad content with
    | .raise _ => plainLineParse content
    | .ret data =>
      let entries : List PyVal :=
        match data with
        | .pydict d =>
          match pyDictGet d ("proxies".toList) with
          | some (.pylist xs) => xs
          | _ => []
        | _ => []
      match clashEntriesLoop entries [] with
      | (collected, true) => lineParseLoop (pySplitlines content) collected
      | (collected, false) => .ret collected
  else plainLineParse content

/-- Model of `deduplicate_nodes`'s dict building (lines 409-412): insert
a pair only when its key is not yet present (Python dicts preserve
insertion order). -/
def uniqueNodesMap {K : Type} [DecidableEq K] (l : List (K × Str)) : List (K × Str) :=
  l.foldl (fun m p => if (m.map Prod.fst).contains p.1 then m else m ++ [p]) []

/-- Model of `deduplicate_nodes` (process_subscriptions.py lines
404-413): first-seen pair per dedup key, values in insertion order. -/
def deduplicate_nodes {K : Type} [DecidableEq K] (l : List (K × Str)) : List Str :=
  (uniqueNodesMap l).map Prod.snd

/-- Model of the `seen.setdefault` comprehension of update.py (main,
lines 229-230) and `写回全部` (lines 174-175): keep the first occurrence
of each string, in order. -/
def dedupStringsAux (seen : List Str) : List Str → List Str
  | [] => []
  | x :: rest =>
    if seen.contains x then dedupStringsAux seen rest
    else x :: dedupStringsAux (x :: seen) rest

/-- The string deduplication of update.py. -/
def dedupStrings (l : List Str) : List Str := dedupStringsAux [] l

/-- Model of script.py `save_nodes` (lines 89-91) at the level of the
lines written to the output file: `'\n'.join(sorted(set(nodes)))`
writes the distinct nodes in sorted order. -/
def save_nodes_lines (nodes : List Str) : List Str :=
  insertionSortBy strLt (dedupStrings nodes)

/-- Model of script.py `decode_base64` (lines 53-61): append `=` padding
up to the next multiple of four, URL-safe base64-decode, decode UTF-8;
any exception yields the empty string. -/
def decode_base64 (data : Str) : Str :=
  match urlsafeB64DecodePy
      (if data.length % 4 ≠ 0 then data ++ List.replicate (4 - data.length % 4) '=' else data) with
  | .raise _ => []
  | .ret bs =>
    match utf8Decode bs with
    | some t => t
    | none => []

/-- Modelled from the spec: the Deduplicator contract in the spec's own
words — "an ordered sequence of `originalRepresentation`, one per
distinct `dedupKey`, first occurrence wins" — written as a direct
recursion over the input, used to compare `deduplicate_nodes` against
the specification. -/
def specFirstWinsAux {K : Type} [DecidableEq K] (seen : List K) :
    List (K × Str) → List Str
  | [] => []
  | (k, v) :: rest =>
    if seen.contains k then specFirstWinsAux seen rest
    else v :: specFirstWinsAux (k :: seen) rest

/-- Spec-side first-occurrence-wins deduplication. -/
def specFirstWins {K : Type} [DecidableEq K] (l : List (K × Str)) : List Str :=
  specFirstWinsAux [] l

-- Concrete inputs used by the claim theorems below.

/-- A trojan manifest entry with server and port but no password. -/
def c3entryNoPw : List (Str × PyVal) :=
  [("type".toList, .pystr ("trojan".toList)),
   ("server".toList, .pystr ("s.example".toList)),
   ("port".toList, .pyint 443)]

/-- A complete trojan manifest entry (sibling of `c3entryNoPw`). -/
def c3entryGood : List (Str × PyVal) :=
  [("type".toList, .pystr ("trojan".toList)),
   ("server".toList, .pystr ("t.example".toList)),
   ("port".toList, .pyint 8443),
   ("password".toList, .pystr ("pw".toList))]

/-- A manifest payload whose `proxies` list holds the two entries above
(the oracle `c3oracle` is what `yaml.safe_load` returns for it). -/
def c3content : Str := "proxies:\n  - dummy".toList

/-- The manifest parser's answer for `c3content`. -/
def c3oracle : Str → PyEx PyVal := fun _ =>
  .ret (.pydict [("proxies".toList, .pylist [.pydict c3entryNoPw, .pydict c3entryGood])])

/-- A payload classified as a manifest (`proxies:` head) whose parse
succeeds but yields no node list: PyYAML parses it to the mapping
`{'proxies': 0, 'trojan://p@s.example:443': 1}`. -/
def c6content : Str := "proxies: 0\ntrojan://p@s.example:443: 1".toList

/-- The manifest parser's answer for `c6content`. -/
def c6oracle : Str → PyEx PyVal := fun _ =>
  .ret (.pydict [("proxies".toList, .pyint 0),
    ("trojan://p@s.example:443".toList, .pyint 1)])

/-- A payload classified as a manifest on which the manifest parser
throws (unclosed flow sequence). -/
def c6errContent : Str := "proxies: [\ntrojan://p@s.example:443#x".toList

/-- A manifest parser that throws, as PyYAML does on `c6errContent`. -/
def c6errOracle : Str → PyEx PyVal := fun _ =>
  .raise ("yaml.YAMLError: while parsing a flow sequence".toList)

-- Helper lemmas about the deduplicators.

theorem specFirstWinsAux_sublist {K : Type} [DecidableEq K] :
    ∀ (l : List (K × Str)) (seen : List K),
      (specFirstWinsAux seen l).Sublist (l.map Prod.snd) := by
  intro l
  induction l with
  | nil => intro seen; simp [specFirstWinsAux]
  | cons p rest ih =>
    intro seen
    obtain ⟨k, v⟩ := p
    simp only [specFirstWinsAux, List.map_cons]
    split
    · exact (ih seen).cons _
    · exact (ih (k :: seen)).cons₂ _

theorem dedupFoldGen {K : Type} [DecidableEq K] :
    ∀ (l : List (K × Str)) (m : List (K × Str)) (seen : List K),
      (∀ k, seen.contains k = (m.map Prod.fst).contains k) →
      (l.foldl (fun m p => if (m.map Prod.fst).contains p.1 then m else m ++ [p]) m).map Prod.snd
        = m.map Prod.snd ++ specFirstWinsAux seen l := by
  intro l
  induction l with
  | nil => intro m seen _; simp [specFirstWinsAux]
  | cons p rest ih =>
    intro m seen h
    obtain ⟨k, v⟩ := p
    simp only [List.foldl_cons, specFirstWinsAux]
    by_cases hk : (m.map Prod.fst).contains k = true
    · rw [if_pos hk]
      have hs : seen.contains k = true := by rw [h k]; exact hk
      rw [if_pos hs]
      exact ih m seen h
    · rw [if_neg hk]
      have hs : ¬ seen.contains k = true := by rw [h k]; exact hk
      rw [if_neg hs]
      have hcond : ∀ kq, (k :: seen).contains kq = ((m ++ [(k, v)]).map Prod.fst).contains kq := by
        intro kq
        have h2 : (kq ∈ seen) ↔ (kq ∈ m.map Prod.fst) := by
          have h3 := h kq
          rw [show seen.contains kq = List.elem kq seen from rfl,
            show (m.map Prod.fst).contains kq = List.elem kq (m.map Prod.fst) from rfl,
            List.elem_eq_mem, List.elem_eq_mem] at h3
          exact decide_eq_decide.mp h3
        rw [show (k :: seen).contains kq = List.elem kq (k :: seen) from rfl,
          show ((m ++ [(k, v)]).map Prod.fst).contains kq
            = List.elem kq ((m ++ [(k, v)]).map Prod.fst) from rfl,
          List.elem_eq_mem, List.elem_eq_mem]
        apply decide_eq_decide.mpr
        simp only [List.map_append, List.mem_cons, List.mem_append, h2,
          List.map_cons, List.map_nil, List.mem_singleton]
        tauto
      rw [ih (m ++ [(k, v)]) (k :: seen) hcond]
      simp [List.map_append]

theorem dedupStringsAux_not_seen :
    ∀ (l : List Str) (seen : List Str) (x : Str),
      x ∈ dedupStringsAux seen l → seen.contains x = false := by
  intro l
  induction l with
  | nil => intro seen x hx; simp [dedupStringsAux] at hx
  | cons y rest ih =>
    intro seen x hx
    simp only [dedupStringsAux] at hx
    by_cases hy : seen.contains y = true
    · rw [if_pos hy] at hx
      exact ih seen x hx
    · rw [if_neg hy] at hx
      rcases List.mem_cons.mp hx with h | h
      · subst h
        exact Bool.not_eq_true _ ▸ (Bool.eq_false_iff.mpr hy)
      · have := ih (y :: seen) x h
        simp only [List.contains_cons, Bool.or_eq_false_iff] at this
        exact this.2

theorem dedupStringsAux_nodup :
    ∀ (l : List Str) (seen : List Str), (dedupStringsAux seen l).Nodup := by
  intro l
  induction l with
  | nil => intro seen; simp [dedupStringsAux]
  | cons y rest ih =>
    intro seen
    simp only [dedupStringsAux]
    by_cases hy : seen.contains y = true
    · rw [if_pos hy]; exact ih seen
    · rw [if_neg hy]
      refine List.nodup_cons.mpr ⟨?_, ih (y :: seen)⟩
      intro hmem
      have := dedupStringsAux_not_seen rest (y :: seen) y hmem
      simp [List.contains_cons] at this

theorem dedupStringsAux_fixed :
    ∀ (l : List Str) (seen : List Str),
      (∀ x, x ∈ l → seen.contains x = false) → l.Nodup →
      dedupStringsAux seen l = l := by
  intro l
  induction l with
  | nil => intro seen _ _; rfl
  | cons y rest ih =>
    intro seen hseen hnd
    have hy : seen.contains y = false := hseen y (List.mem_cons_self _ _)
    have hy2 : y ∉ seen := by simpa using hy
    simp only [dedupStringsAux]
    rw [if_neg (by simpa using hy2)]
    congr 1
    refine ih (y :: seen) ?_ (List.nodup_cons.mp hnd).2
    intro x hx
    simp only [List.contains_cons, Bool.or_eq_false_iff]
    constructor
    · have hne : x ≠ y := by
        intro he
        subst he
        exact (List.nodup_cons.mp hnd).1 hx
      simp [hne]
    · exact hseen x (List.mem_cons_of_mem _ hx)

theorem dedupStringsAux_sublist :
    ∀ (l : List Str) (seen : List Str), (dedupStringsAux seen l).Sublist l := by
  intro l
  induction l with
  | nil => intro seen; simp [dedupStringsAux]
  | cons y rest ih =>
    intro seen
    simp only [dedupStringsAux]
    split
    · exact (ih seen).cons _
    · exact (ih (y :: seen)).cons₂ _

theorem dedupNodesEqSpec {K : Type} [DecidableEq K] (l : List (K × Str)) :
    deduplicate_nodes l = specFirstWins l := by
  unfold deduplicate_nodes uniqueNodesMap specFirstWins
  have h := dedupFoldGen l [] [] (fun _ => rfl)
  simpa using h

/-- C1 (amended): `deduplicate_nodes` returns exactly the sequence the
spec describes — one `originalRepresentation` per distinct dedup key,
the first occurrence winning, in input order (`specFirstWins` is the
spec's wording as a definition).  The original claim's parenthetical —
that the node output written to file is never re-sorted — fails for
script.py's `save_nodes`, which writes `sorted(set(nodes))`; see the
counterexample. -/
theorem c1_dedup_first_wins_order {K : Type} [DecidableEq K] (l : List (K × Str)) :
    deduplicate_nodes l = specFirstWins l :=
  dedupNodesEqSpec l

/-- C1 counterexample: `deduplicate_nodes` preserves input order
(`["b", "a"]`), but script.py's `save_nodes` then writes the lines
re-sorted (`["a", "b"]`), contradicting the claim that the output
written to file keeps the input's relative order. -/
theorem c1_save_nodes_resorts :
    deduplicate_nodes [("k2".toList, "b".toList), ("k1".toList, "a".toList)]
      = ["b".toList, "a".toList] ∧
    save_nodes_lines ["b".toList, "a".toList] = ["a".toList, "b".toList] ∧
    (["a".toList, "b".toList] : List Str) ≠ ["b".toList, "a".toList] := by
  decide

/-- C9: the Deduplicator is idempotent and order-preserving: update.py's
string deduplication (`seen.setdefault` comprehension, main lines
228-231) applied to its own output returns it unchanged, its output is
a subsequence of its input, and `deduplicate_nodes`'s output is a
subsequence of the input representations. -/
theorem c9_dedup_idempotent_subsequence (l : List Str) (p : List (Option Str × Str)) :
    dedupStrings (dedupStrings l) = dedupStrings l ∧
    (dedupStrings l).Sublist l ∧
    (deduplicate_nodes p).Sublist (p.map Prod.snd) := by
  refine ⟨?_, ?_, ?_⟩
  · unfold dedupStrings
    exact dedupStringsAux_fixed _ [] (fun x _ => rfl) (dedupStringsAux_nodup _ [])
  · exact dedupStringsAux_sublist l []
  · rw [dedupNodesEqSpec]
    exact specFirstWinsAux_sublist p []

/-- C10: every line containing `name:` in any letter case, or the
substring `→ tg@`, is rejected by `_parse_raw_uri_line` (it returns
`None`), regardless of whether the line is otherwise a valid proxy
URI — the checks at lines 174-175 run before any scheme parsing. -/
theorem c10_name_filter (line : Str)
    (h : containsSub (pyLower line) ("name:".toList) = true ∨
         containsSub line ("→ tg@".toList) = true) :
    parseRawUriLine line = .ret none := by
  by_cases he : line.isEmpty
  · simp [parseRawUriLine, he]
  · have hn : noiseLine line = true := by
      unfold noiseLine
      rcases h with h | h
      · rw [show ("name:".toList : Str) = ['n', 'a', 'm', 'e', ':'] from rfl] at h
        simp [h]
      · rw [show ("→ tg@".toList : Str) = ['→', ' ', 't', 'g', '@'] from rfl] at h
        simp [h]
    simp [parseRawUriLine, he, hn]

/-- C10 witness: `trojan://a@b:1#name:x` is a syntactically valid trojan
URI, yet the `name:` in its tag makes the parser drop it. -/
theorem c10_name_filter_witness :
    parseRawUriLine ("trojan://a@b:1#name:x".toList) = .ret none :=
  c10_name_filter ("trojan://a@b:1#name:x".toList) (Or.inl (by decide))

/-- C2 counterexample: `trojan://abc` matches the `trojan://` prefix and
fails the trojan extraction rule, yet `_parse_raw_uri_line` does not
report it as unparseable — it returns a pair whose dedup key is built
from the line's own raw text (`prefix + node_uri[:100]`, lines 341-344). -/
theorem c2_generic_fallback_emits :
    parseRawUriLine ("trojan://abc".toList)
      = .ret (some ("trojan://trojan://abc".toList, "trojan://abc".toList)) ∧
    parseRawUriLine ("trojan://abc".toList) ≠ .ret none := by
  decide

/-- C2 (amended): a non-noise line matching a scheme prefix whose scheme
branch neither returns a pair nor returns `None` is emitted with the
generic dedup key `prefix + node_uri[:100]` — built from its own raw
text — rather than dropped; only the vmess branch (`SchemeOutcome.drop`)
reports such a line as unparseable. -/
theorem c2_fallback_key_is_raw_text (line pfx : Str)
    (h1 : line.isEmpty = false)
    (h2 : noiseLine line = false)
    (h3 : firstProto line = some pfx)
    (h4 : tryScheme pfx (pyStrip line) = .ret .fall) :
    parseRawUriLine line = .ret (some (pfx ++ (pyStrip line).take 100, pyStrip line)) := by
  simp [parseRawUriLine, h1, h2, h3, h4]

/-- C2 witness: the fallback theorem applied to `trojan://abc`. -/
theorem c2_fallback_witness :
    parseRawUriLine ("trojan://abc".toList)
      = .ret (some ("trojan://".toList ++ (pyStrip ("trojan://abc".toList)).take 100,
          pyStrip ("trojan://abc".toList))) :=
  c2_fallback_key_is_raw_text ("trojan://abc".toList) ("trojan://".toList)
    (by decide) (by decide) (by decide) (by decide)

/-- C3 counterexample: a trojan manifest entry with server and port but
no password is not skipped: `_parse_clash_proxy_entry` emits the
placeholder node `clash_unknown_` + sorted JSON dump as dedup key with
`str(proxy_entry)` as representation (lines 158-161), contradicting the
claim that such an entry produces no node. -/
theorem c3_placeholder_emitted :
    parseClashProxyEntry c3entryNoPw
      = .ret (some (some ("clash_unknown_\x7b\x22port\x22: 443, \x22server\x22: \x22s.example\x22, \x22type\x22: \x22trojan\x22\x7d".toList),
          "\x7b\x27type\x27: \x27trojan\x27, \x27server\x27: \x27s.example\x27, \x27port\x27: 443\x7d".toList)) ∧
    parseClashProxyEntry c3entryNoPw ≠ .ret none := by
  decide

/-- The vmess manifest entry of the C3 theorems: server and port
present but no uuid. -/
def c3entryVmessNoUuid : List (Str × PyVal) :=
  [("type".toList, .pystr ("vmess".toList)),
   ("server".toList, .pystr ("v.example".toList)),
   ("port".toList, .pyint 80)]

theorem parseClashEntryEq (e : List (Str × PyVal)) (nm : Str)
    (hn : clashEntryName e = .ret nm) :
    parseClashProxyEntry e =
      if (!(pyTruthy (pyGetD e ("server".toList) .pynone)) ||
          !(pyTruthy (pyGetD e ("port".toList) .pynone))) = true then .ret none
      else
        match clashBranchDispatch e (pyGetD e ("type".toList) .pynone)
            (pyGetD e ("server".toList) .pynone) (pyGetD e ("port".toList) .pynone) nm with
        | .raise m => .raise m
        | .ret (some r) => .ret (some r)
        | .ret none =>
          .ret (some (some ("clash_unknown_".toList ++ (jsonDumps true (.pydict e)).take 100),
            pyReprVal (.pydict e))) := by
  unfold parseClashProxyEntry
  rw [hn]

/-- C3 (amended): `_parse_clash_proxy_entry` skips an entry (returns
`None`) if and only if its `server` or `port` is missing or falsy
(given the `name` lookup does not itself raise).  An entry with server
and port that no per-scheme branch reconstructs — e.g. a trojan entry
without a password, or an entry of unrecognized type — is emitted as a
`clash_unknown_` placeholder node instead of being skipped (second
conjunct, general over entries whose dispatch sets no `node_uri`); a
vmess entry with server and port but no uuid is emitted as a
reconstructed `vmess://` URI paired with a Python-`None` dedup key, not
a placeholder and not a skip (third conjunct: the `KeyError` on the
filtered config's `id` at line 70 is caught after `node_uri` is set);
sibling entries of the same manifest are still processed (fourth
conjunct: the placeholder and the well-formed sibling both appear, in
order). -/
theorem c3_skip_only_missing_endpoint :
    (∀ (e : List (Str × PyVal)) (nm : Str), clashEntryName e = .ret nm →
      (parseClashProxyEntry e = .ret none ↔
        (pyTruthy (pyGetD e ("server".toList) .pynone) = false ∨
         pyTruthy (pyGetD e ("port".toList) .pynone) = false))) ∧
    (∀ (e : List (Str × PyVal)) (nm : Str), clashEntryName e = .ret nm →
      pyTruthy (pyGetD e ("server".toList) .pynone) = true →
      pyTruthy (pyGetD e ("port".toList) .pynone) = true →
      clashBranchDispatch e (pyGetD e ("type".toList) .pynone)
          (pyGetD e ("server".toList) .pynone) (pyGetD e ("port".toList) .pynone) nm
        = .ret none →
      parseClashProxyEntry e
        = .ret (some (some ("clash_unknown_".toList ++ (jsonDumps true (.pydict e)).take 100),
            pyReprVal (.pydict e)))) ∧
    parseClashProxyEntry c3entryVmessNoUuid
      = .ret (some (none,
          "vmess://eyJ2IjogIjIiLCAiYWRkIjogInYuZXhhbXBsZSIsICJwb3J0IjogODAsICJzY3kiOiAiYXV0byIsICJ0eXBlIjogInZtZXNzIn0".toList)) ∧
    parse_nodes c3oracle c3content
      = .ret [(some ("clash_unknown_\x7b\x22port\x22: 443, \x22server\x22: \x22s.example\x22, \x22type\x22: \x22trojan\x22\x7d".toList),
          "\x7b\x27type\x27: \x27trojan\x27, \x27server\x27: \x27s.example\x27, \x27port\x27: 443\x7d".toList),
         (some ("trojan://t.example:8443".toList), "trojan://pw@t.example:8443".toList)] := by
  refine ⟨?_, ?_, by decide, by decide⟩
  · intro e nm hn
    constructor
    · intro h
      rw [parseClashEntryEq e nm hn] at h
      by_cases hc : (!(pyTruthy (pyGetD e ("server".toList) .pynone)) ||
          !(pyTruthy (pyGetD e ("port".toList) .pynone))) = true
      · simpa using hc
      · rw [if_neg hc] at h
        cases hd : clashBranchDispatch e (pyGetD e ("type".toList) .pynone)
            (pyGetD e ("server".toList) .pynone) (pyGetD e ("port".toList) .pynone) nm with
        | raise m => rw [hd] at h; simp at h
        | ret o =>
          cases o with
          | none => rw [hd] at h; simp at h
          | some r => rw [hd] at h; simp at h
    · intro hmiss
      rw [parseClashEntryEq e nm hn]
      rcases hmiss with h | h
      · rw [h]; simp
      · rw [h]; simp
  · intro e nm hn hs hp hd
    rw [parseClashEntryEq e nm hn, hs, hp, hd]
    rfl

/-- C3 witness: a trojan entry with a port but no server is skipped
(skip-iff, backwards direction), and the trojan entry without a
password — whose dispatch reconstructs nothing — is emitted as the
`clash_unknown_` placeholder (general placeholder conjunct). -/
theorem c3_skip_witness :
    parseClashProxyEntry [("type".toList, .pystr ("trojan".toList)), ("port".toList, .pyint 443)]
      = .ret none ∧
    parseClashProxyEntry c3entryNoPw
      = .ret (some (some ("clash_unknown_".toList ++ (jsonDumps true (.pydict c3entryNoPw)).take 100),
          pyReprVal (.pydict c3entryNoPw))) := by
  refine ⟨(c3_skip_only_missing_endpoint.1 _ [] (by decide)).mpr (Or.inl (by decide)), ?_⟩
  exact c3_skip_only_missing_endpoint.2.1 c3entryNoPw [] (by decide) (by decide) (by decide) rfl

/-- C5: script.py's `decode_base64` repairs missing padding by appending
`=` up to the next multiple-of-four length, so decoding any string is
the same as decoding its correctly padded form — for every input, the
unpadded and padded strings decode to the same text. -/
theorem c5_padding_repair (data : Str) :
    decode_base64 data
      = decode_base64 (data ++ List.replicate ((4 - data.length % 4) % 4) '=') := by
  have hm : data.length % 4 < 4 := Nat.mod_lt _ (by omega)
  by_cases h : data.length % 4 = 0
  · have h0 : (4 - data.length % 4) % 4 = 0 := by omega
    simp [h0]
  · have hrep : (4 - data.length % 4) % 4 = 4 - data.length % 4 := by omega
    rw [hrep]
    unfold decode_base64
    rw [if_pos h, if_neg (by simp only [List.length_append, List.length_replicate]; omega)]

/-- C6 counterexample: `c6content` is classified as a manifest, parses
(oracle `c6oracle`, what PyYAML returns for it), and has a `proxies`
key that is not a list — `parse_nodes` returns no nodes and does NOT
fall through to plain-line parsing, although line parsing of the same
text would find a trojan node.  This contradicts the claim that such a
payload falls through to plain-line parsing. -/
theorem c6_no_fallthrough_on_bad_key :
    parse_nodes c6oracle c6content = .ret [] ∧
    plainLineParse c6content
      = .ret [(some ("trojan://s.example:443".toList),
          "trojan://p@s.example:443: 1".toList)] ∧
    PyEx.ret ([] : List (Option Str × Str))
      ≠ .ret [(some ("trojan://s.example:443".toList),
          "trojan://p@s.example:443: 1".toList)] := by
  decide

/-- C6 (amended): when the payload is classified as a structured
manifest and the manifest parser throws, `parse_nodes` catches the
exception and parses the same text line by line (never fatal); but when
the manifest parses and the node-list key is absent or not a list, the
empty extraction is returned as-is, without falling through to
plain-line parsing (see the counterexample). -/
theorem c6_fallthrough_on_parser_error (yamlLoad : Str → PyEx PyVal)
    (content : Str) (msg : Str)
    (hclass : yamlClassified content = true)
    (herr : yamlLoad content = .raise msg) :
    parse_nodes yamlLoad content = plainLineParse content := by
  simp [parse_nodes, hclass, herr]

/-- C6 witness: the fall-through theorem at a manifest-classified
payload whose parse throws. -/
theorem c6_fallthrough_witness :
    parse_nodes c6errOracle c6errContent = plainLineParse c6errContent :=
  c6_fallthrough_on_parser_error c6errOracle c6errContent
    ("yaml.YAMLError: while parsing a flow sequence".toList) (by decide) rfl

/-- C4 counterexample to the general clause "the ss dedup key never
depends on the fragment/tag suffix": `ss://#YTox` and `ss://#AAAA`
differ only in the fragment, yet they receive different dedup keys —
the fragment's base64-alphabet characters take part in the attempted
base64 decode of everything after `ss://` (`YTox` decodes to `a:1`,
which the regex fallback turns into the key `ss://a:1`, while `AAAA`
decodes to three NUL bytes and the line falls to the generic raw-text
key). -/
theorem c4_fragment_affects_key :
    parseRawUriLine ("ss://#".toList ++ "YTox".toList)
      = .ret (some ("ss://a:1".toList, "ss://#YTox".toList)) ∧
    parseRawUriLine ("ss://#".toList ++ "AAAA".toList)
      = .ret (some ("ss://ss://#AAAA".toList, "ss://#AAAA".toList)) ∧
    ("ss://a:1".toList : Str) ≠ "ss://ss://#AAAA".toList := by
  decide

/-- C4 (amended): the spec's concrete scenario holds — the two inputs
`ss://YWVzLTI1Ni1nY206cGFzcw==@1.2.3.4:8388#A` and `...#B`, identical
except for the fragment, receive the same dedup key `ss://1.2.3.4:8388`,
and deduplication keeps exactly the first of the two lines.  The
stronger general clause (the ss key never depends on the fragment) is
false: see the counterexample. -/
theorem c4_scenario_one_of_two :
    parseRawUriLine ("ss://YWVzLTI1Ni1nY206cGFzcw==@1.2.3.4:8388#A".toList)
      = .ret (some ("ss://1.2.3.4:8388".toList,
          "ss://YWVzLTI1Ni1nY206cGFzcw==@1.2.3.4:8388#A".toList)) ∧
    parseRawUriLine ("ss://YWVzLTI1Ni1nY206cGFzcw==@1.2.3.4:8388#B".toList)
      = .ret (some ("ss://1.2.3.4:8388".toList,
          "ss://YWVzLTI1Ni1nY206cGFzcw==@1.2.3.4:8388#B".toList)) ∧
    deduplicate_nodes
        [("ss://1.2.3.4:8388".toList, "ss://YWVzLTI1Ni1nY206cGFzcw==@1.2.3.4:8388#A".toList),
         ("ss://1.2.3.4:8388".toList, "ss://YWVzLTI1Ni1nY206cGFzcw==@1.2.3.4:8388#B".toList)]
      = ["ss://YWVzLTI1Ni1nY206cGFzcw==@1.2.3.4:8388#A".toList] := by
  decide

-- Concrete vless inputs for C7.

/-- A vless manifest entry using the ws transport with TLS. -/
def c7entryWs : List (Str × PyVal) :=
  [("type".toList, .pystr ("vless".toList)),
   ("server".toList, .pystr ("s.example".toList)),
   ("port".toList, .pyint 443),
   ("uuid".toList, .pystr ("u1".toList)),
   ("network".toList, .pystr ("ws".toList)),
   ("tls".toList, .pybool true)]

/-- The same endpoint and uuid with the grpc transport and no TLS. -/
def c7entryGrpc : List (Str × PyVal) :=
  [("type".toList, .pystr ("vless".toList)),
   ("server".toList, .pystr ("s.example".toList)),
   ("port".toList, .pyint 443),
   ("uuid".toList, .pystr ("u1".toList)),
   ("network".toList, .pystr ("grpc".toList))]

/-- C7 counterexample: two vless URIs at the same endpoint with the same
uuid but different `security`/`type` parameters receive the SAME dedup
key `vless://u@s:1` — the key built at line 281 is
`vless://{uuid}@{server}:{port}` and contains no security or transport
parameter, contradicting the claimed key composition. -/
theorem c7_security_not_in_key :
    parseRawUriLine ("vless://u@s:1?security=tls&type=ws#é".toList)
      = .ret (some ("vless://u@s:1".toList, "vless://u@s:1?security=tls&type=ws#é".toList)) ∧
    parseRawUriLine ("vless://u@s:1?security=none&type=grpc#é".toList)
      = .ret (some ("vless://u@s:1".toList, "vless://u@s:1?security=none&type=grpc#é".toList)) := by
  decide

/-- C7 (amended): the vless dedup key is composed of uuid, server and
port only — `vless://uuid@server:port` — in both the raw-URI branch and
the manifest branch; security and transport-type parameters are not
part of the key, so the two manifest entries above (same endpoint and
uuid, different network/tls) collapse to the same key even though their
reconstructed URIs differ. -/
theorem c7_key_uuid_server_port :
    parseClashProxyEntry c7entryWs
      = .ret (some (some ("vless://u1@s.example:443".toList),
          "vless://u1@s.example:443?tls=true&type=ws".toList)) ∧
    parseClashProxyEntry c7entryGrpc
      = .ret (some (some ("vless://u1@s.example:443".toList),
          "vless://u1@s.example:443?type=grpc".toList)) := by
  decide

theorem pyStripVmessLine (s : Str) :
    pyStrip ("vmess://".toList ++ s) = "vmess://".toList ++ pyStripRight s := by
  unfold pyStrip pyStripLeft pyStripRight
  have hdl : List.dropWhile isPyWs ("vmess://".toList ++ s) = "vmess://".toList ++ s := rfl
  rw [hdl, List.reverse_append, List.dropWhile_append]
  by_cases he : (List.dropWhile isPyWs s.reverse).isEmpty = true
  · rw [if_pos he]
    have hpre : List.dropWhile isPyWs ("vmess://".toList).reverse
        = ("vmess://".toList).reverse := rfl
    rw [hpre, List.reverse_reverse, List.isEmpty_iff.mp he]
    simp
  · rw [if_neg he, List.reverse_append, List.reverse_reverse]

theorem parseRawUriLineNoise (line : Str) (h2 : noiseLine line = true) :
    parseRawUriLine line = .ret none := by
  by_cases h1 : line.isEmpty = true
  · simp [parseRawUriLine, h1]
  · simp [parseRawUriLine, h1, h2]

theorem parseRawUriLineDropCase (line pfx : Str)
    (h1 : line.isEmpty = false) (h2 : noiseLine line = false)
    (h3 : firstProto line = some pfx)
    (h4 : tryScheme pfx (pyStrip line) = .ret .drop) :
    parseRawUriLine line = .ret none := by
  simp [parseRawUriLine, h1, h2, h3, h4]

/-- C8: a `vmess://` line whose payload is base64 that decodes (after
the source's `+ b'=='` padding) to text that is not valid JSON is
dropped: `_parse_raw_uri_line` returns `None` (the `JSONDecodeError` is
caught, and the vmess traditional fallback at lines 264-267 returns
`None`), and no exception escapes — the result is a normal `.ret`,
never a `.raise`. -/
theorem c8_vmess_invalid_json_dropped (s : Str) (bs : Bytes)
    (hdec : a2bBase64 (pyStripRight s ++ "==".toList) = .ret bs)
    (hjson : jsonLoads (textFromBytes bs) = none) :
    parseRawUriLine ("vmess://".toList ++ s) = .ret none := by
  have h1 : ("vmess://".toList ++ s).isEmpty = false := rfl
  have hfp : firstProto ("vmess://".toList ++ s) = some ("vmess://".toList) := by
    simp [firstProto, protoSchemes, List.find?, List.isPrefixOf]
  cases hnoise : noiseLine ("vmess://".toList ++ s) with
  | true => exact parseRawUriLineNoise _ hnoise
  | false =>
    have htrad : traditionalParse ("vmess://".toList) ("vmess://".toList ++ pyStripRight s)
        = .ret .drop := by
      simp [traditionalParse]
    have hb64 : b64TrioAttempt ("vmess://".toList) ("vmess://".toList ++ pyStripRight s)
        = .ret none := by
      unfold b64TrioAttempt
      rw [List.drop_left]
      cases hascii : allAscii (pyStripRight s) with
      | false => simp [hascii]
      | true =>
        simp only [hascii, Bool.not_true, Bool.false_eq_true, if_false]
        rw [hdec]
        simp only [hjson]
        simp
    have hts : tryScheme ("vmess://".toList) (pyStrip ("vmess://".toList ++ s))
        = .ret .drop := by
      rw [pyStripVmessLine]
      unfold tryScheme
      rw [if_pos (Or.inr (Or.inl rfl)), hb64]
      exact htrad
    exact parseRawUriLineDropCase _ _ h1 hnoise hfp hts

/-- C8 witness: `vmess://bm90anNvbg` — base64 of `notjson`, which is not
valid JSON — is dropped with no escaping exception. -/
theorem c8_witness :
    parseRawUriLine ("vmess://".toList ++ "bm90anNvbg".toList) = .ret none :=
  c8_vmess_invalid_json_dropped ("bm90anNvbg".toList)
    [110, 111, 116, 106, 115, 111, 110] rfl rfl
